import Mathlib

open scoped Classical

/-! Formal model of the real-time transit pipeline of this repository:
    the geodesy helpers, the subline matcher, the per-frame pipeline
    `processLocationData` and the station query of
    src/services/realtimeProcessor.js, together with the driver WebSocket
    message handler of src/server.js.

    JavaScript numbers are idealised as real numbers; the value `none` of
    an `Option ℝ` models NaN / undefined / a non-numeric value, exactly at
    the places where the source validates them.  Strings are modelled as
    lists of characters.  Database query results are passed in as explicit
    parameters (a failed query is `none`). -/

namespace Transit

/-- JS Math.atan2: the argument of the complex number x + y i, in (-pi, pi]. -/
noncomputable def atan2 (y x : ℝ) : ℝ := Complex.arg ⟨x, y⟩

/-- Truncation toward zero, as the JS % operator applies to its quotient. -/
noncomputable def jsTrunc (r : ℝ) : ℝ := if 0 ≤ r then (⌊r⌋ : ℝ) else (⌈r⌉ : ℝ)

/-- The JS remainder operator x % y on numbers (takes the sign of the dividend). -/
noncomputable def jsFmod (x y : ℝ) : ℝ := x - y * jsTrunc (x / y)

/-- JS a || b on a possibly-absent number: undefined and 0 are falsy. -/
noncomputable def jsOrNum (a b : Option ℝ) : Option ℝ :=
  match a with
  | some x => if x = 0 then b else some x
  | none => b

/-- First value in an association list stored under the key, mirroring
    Map.prototype.get on the maps built from the ordered DB rows. -/
def lookupList {α : Type} (m : List (ℕ × α)) (k : ℕ) : Option α :=
  (m.find? (fun e => e.1 = k)).map (·.2)

/-! ### Configuration constants (src/services/realtimeProcessor.js, lines 8-13) -/

def MIN_SIGNALS_FOR_DIRECTION : ℕ := 3

noncomputable def MIN_MOVEMENT_THRESHOLD_METERS : ℝ := 1.0

noncomputable def DIRECTION_MATCH_THRESHOLD_DEGREES : ℝ := 45.0

noncomputable def STOP_DEPARTURE_ADD_SECONDS : ℝ := 30

def HISTORY_SIZE : ℕ := 5

/-! ### Timestamp formatting

    The outbound messages derive their upd/date fields from an ISO-8601
    timestamp string through JS string operations; these are modelled
    character by character. -/

/-- JS String.prototype.replace with the plain pattern T: replaces only the
    first occurrence. -/
def replaceFirstT : List Char → List Char
  | [] => []
  | c :: cs => if c = 'T' then ' ' :: cs else c :: replaceFirstT cs

/-- JS .replace(/\..*$/, ""): drops everything from the first dot on. -/
def stripDotSuffix (l : List Char) : List Char := l.takeWhile (fun c => c != '.')

/-- JS .replace(/[-:]/g, ""). -/
def stripDashColon (l : List Char) : List Char :=
  l.filter (fun c => c != '-' && c != ':')

/-- JS .replace(/\s|-|:/g, ""). -/
def stripSpaceDashColon (l : List Char) : List Char :=
  l.filter (fun c => c != ' ' && c != '-' && c != ':')

/-- upd/date of a position message (line 473):
    ts.replace("T", " ").substring(0, 19).replace(/\..*$/, "").replace(/[-:]/g, ""). -/
def fmtPositionTs (iso : List Char) : List Char :=
  stripDashColon (stripDotSuffix ((replaceFirstT iso).take 19))

/-- upd/date of a close message (line 444): same but with substring(0, 17). -/
def fmtCloseTs (iso : List Char) : List Char :=
  stripDashColon (stripDotSuffix ((replaceFirstT iso).take 17))

/-- currentTimeFormatted (line 515): ts.replace("T", " ").substring(0, 19)
    .replace(/\..*$/, ""). -/
def fmtEstaBase (iso : List Char) : List Char :=
  stripDotSuffix ((replaceFirstT iso).take 19)

/-- upd/date and pos.time of an esta-info message (lines 604, 611):
    currentTimeFormatted.replace(/\s|-|:/g, ""). -/
def fmtEstaTs (iso : List Char) : List Char :=
  stripSpaceDashColon (fmtEstaBase iso)

/-! ### Geodesy (lines 32-181) -/

/-- haversineDistance on validated numeric inputs (lines 46-57),
    with Earth radius 6371e3 m. -/
noncomputable def haversineDistanceR (lat1 lon1 lat2 lon2 : ℝ) : ℝ :=
  let R : ℝ := 6371000
  let φ1 := lat1 * Real.pi / 180
  let φ2 := lat2 * Real.pi / 180
  let dLat := (lat2 - lat1) * Real.pi / 180
  let dLon := (lon2 - lon1) * Real.pi / 180
  let a := Real.sin (dLat / 2) * Real.sin (dLat / 2) +
      Real.cos φ1 * Real.cos φ2 * Real.sin (dLon / 2) * Real.sin (dLon / 2)
  let c := 2 * atan2 (Real.sqrt a) (Real.sqrt (1 - a))
  R * c

/-- haversineDistance (lines 32-58): any invalid coordinate yields NaN,
    modelled as `none`. -/
noncomputable def haversineDistance :
    Option ℝ → Option ℝ → Option ℝ → Option ℝ → Option ℝ
  | some lat1, some lon1, some lat2, some lon2 =>
      some (haversineDistanceR lat1 lon1 lat2 lon2)
  | _, _, _, _ => none

/-- calculateBearing on validated numeric inputs (lines 107-116): forward
    azimuth normalised by (θ·180/π + 360) % 360. -/
noncomputable def calculateBearingR (lat1 lon1 lat2 lon2 : ℝ) : ℝ :=
  let φ1 := lat1 * Real.pi / 180
  let φ2 := lat2 * Real.pi / 180
  let dLon := (lon2 - lon1) * Real.pi / 180
  let y := Real.sin dLon * Real.cos φ2
  let x := Real.cos φ1 * Real.sin φ2 - Real.sin φ1 * Real.cos φ2 * Real.cos dLon
  let θ := atan2 y x
  jsFmod (θ * 180 / Real.pi + 360) 360

/-- calculateBearing (lines 92-117): null on any invalid coordinate. -/
noncomputable def calculateBearing :
    Option ℝ → Option ℝ → Option ℝ → Option ℝ → Option ℝ
  | some lat1, some lon1, some lat2, some lon2 =>
      some (calculateBearingR lat1 lon1 lat2 lon2)
  | _, _, _, _ => none

/-- One entry of a bus history ring: the (lat, lng, timestamp) object
    pushed at line 383. -/
structure HistEntry where
  lat : Option ℝ
  lng : Option ℝ
  timestamp : List Char

/-- One qualifying step of the loop of calculateAverageBearing
    (lines 132-163): the pair must have valid coordinates, a valid distance
    of at least MIN_MOVEMENT_THRESHOLD_METERS, and a valid bearing. -/
noncomputable def segmentBearing (prevCoord currCoord : HistEntry) : Option ℝ :=
  match haversineDistance prevCoord.lat prevCoord.lng currCoord.lat currCoord.lng with
  | none => none
  | some distance =>
      if MIN_MOVEMENT_THRESHOLD_METERS ≤ distance then
        calculateBearing prevCoord.lat prevCoord.lng currCoord.lat currCoord.lng
      else none

/-- The bearings array collected by the index loop of
    calculateAverageBearing (lines 131-163), in order. -/
noncomputable def collectBearings : List HistEntry → List ℝ
  | prevCoord :: currCoord :: rest =>
      (segmentBearing prevCoord currCoord).toList ++ collectBearings (currCoord :: rest)
  | _ => []

/-- calculateAverageBearing (lines 125-181): circular mean of the
    qualifying segment bearings via unit-vector sums and atan2, normalised
    by (θ + 360) % 360; null when no qualifying segment exists. -/
noncomputable def calculateAverageBearing (coordHistory : List HistEntry) : Option ℝ :=
  if coordHistory.length < 2 then none
  else
    let bearings := collectBearings coordHistory
    if bearings = [] then none
    else
      let sumX := (bearings.map (fun b => Real.cos (b * Real.pi / 180))).sum
      let sumY := (bearings.map (fun b => Real.sin (b * Real.pi / 180))).sum
      some (jsFmod (atan2 sumY sumX * 180 / Real.pi + 360) 360)

/-! ### Catalog data

    getOrderedStopsForRouteSublines (lines 190-242) turns the DB rows into
    a Map from subline id to its ordered stop list; the query orders by
    subline id ascending, then stop order ascending, so the Map iterates
    sublines by ascending id and each stop list by ascending stop order.
    The query result is modelled as an explicit parameter: an association
    list in iteration order, or `none` for a storage error (the catch
    branch at lines 238-241 returns null). -/

/-- A stop row as assembled at lines 220-228. -/
structure Stop where
  id : ℕ
  cod : List Char
  lat : ℝ
  lon : ℝ
  nam : List Char
  ref : List Char
  order : ℕ

/-- The Map built by getOrderedStopsForRouteSublines, in iteration order. -/
abbrev SublineStops := List (ℕ × List Stop)

/-! ### Matcher (matchBusToSublineByHistoryAndRoute, lines 255-333) -/

/-- One iteration of the segment loop (lines 290-323): score a consecutive
    stop pair of a subline against the average bearing of the bus and keep
    it only when the score strictly exceeds the current best.  The running
    best is `none` for the initial (null, -Infinity) pair. -/
noncomputable def considerSegment (avgBearing : ℝ) (sublineId : ℕ)
    (best : Option (ℕ × ℝ)) (pq : Stop × Stop) : Option (ℕ × ℝ) :=
  match calculateBearing (some pq.1.lat) (some pq.1.lon) (some pq.2.lat) (some pq.2.lon) with
  | none => best
  | some routeSegmentBearing =>
      let angleDiff := min |avgBearing - routeSegmentBearing|
        (360 - |avgBearing - routeSegmentBearing|)
      if angleDiff ≤ DIRECTION_MATCH_THRESHOLD_DEGREES then
        let score := DIRECTION_MATCH_THRESHOLD_DEGREES - angleDiff
        match best with
        | none => some (sublineId, score)
        | some (bestId, bestScore) =>
            if score > bestScore then some (sublineId, score) else some (bestId, bestScore)
      else best

/-- The consecutive stop pairs (stops[i], stops[i+1]) visited by the
    segment loop, in ascending stop order. -/
def sublineSegments (stops : List Stop) : List (Stop × Stop) :=
  stops.zip stops.tail

/-- One iteration of the subline loop (lines 281-324): a subline with
    fewer than 2 stops is skipped, otherwise its consecutive stop pairs
    are scored in ascending stop order. -/
noncomputable def considerSubline (avgBearing : ℝ) (best : Option (ℕ × ℝ))
    (entry : ℕ × List Stop) : Option (ℕ × ℝ) :=
  if entry.2.length < 2 then best
  else (sublineSegments entry.2).foldl (considerSegment avgBearing entry.1) best

/-- matchBusToSublineByHistoryAndRoute (lines 255-333).  The result of the
    getOrderedStopsForRouteSublines call at line 271 is the `catalog`
    parameter (`none` for a storage error).  Returns the subline id with
    the best score, or null. -/
noncomputable def matchBusToSublineByHistoryAndRoute
    (catalog : Option SublineStops) (coordHistory : List HistEntry) : Option ℕ :=
  if coordHistory.length < MIN_SIGNALS_FOR_DIRECTION then none
  else
    match calculateAverageBearing coordHistory with
    | none => none
    | some avgBearing =>
        match catalog with
        | none => none
        | some sublineStopsMap =>
            if sublineStopsMap.length = 0 then none
            else (sublineStopsMap.foldl (considerSubline avgBearing) none).map (·.1)

/-! ### Pipeline state and messages (processLocationData, lines 362-678) -/

/-- The stops cache entry stored at lines 505 / 509. -/
structure StopsCache where
  rtId : ℕ
  stops : List Stop

/-- The per-bus state object of activeBusStates (lines 371-379).  It has
    exactly these properties; in particular no lat, lng or velocity. -/
structure BusState where
  history : List HistEntry
  mainRtId : Option ℕ
  currentSublineRtId : Option ℕ
  lastProcessedSublineRtId : Option ℕ
  lastProcessedTimestamp : Option (List Char)
  stopsForCurrentSublineRtId : Option StopsCache

/-- The initial state object literal of lines 371-379. -/
def initialBusState : BusState := ⟨[], none, none, none, none, none⟩

/-- An inbound driver frame.  The timestamp is its ISO-8601 rendering
    (new Date(timestamp).toISOString(), line 364). -/
structure RawFrame where
  routeId : ℕ
  busId : Option (List Char)
  lat : Option ℝ
  lng : Option ℝ
  timestamp : List Char
  velocity : ℝ

/-- JS history truncation at lines 386-388: keep the last n entries when
    the length exceeds n (Array.prototype.slice with a negative index). -/
def jsLastN {α : Type} (n : ℕ) (l : List α) : List α :=
  if n < l.length then l.drop (l.length - n) else l

/-- busState.history[busState.history.length - 2] with JS out-of-range
    indexing yielding undefined (lines 448-449). -/
def histPrev (h : List HistEntry) : Option HistEntry :=
  if 2 ≤ h.length then h.get? (h.length - 2) else none

/-- JS a ? a : b on a possibly-absent string (empty strings are falsy). -/
def jsOrStr (a : Option (List Char)) (b : List Char) : List Char :=
  match a with
  | some s => if s = [] then b else s
  | none => b

/-- A close message (lines 440-453). -/
structure CloseMsg where
  rt_id : ℕ
  upd : List Char
  date : List Char
  del : ℕ
  pass : List Char
  lat : Option ℝ
  lng : Option ℝ
  stop_id : ℕ
  stop_code : List Char
  stop_nam : List Char

/-- A position message (lines 469-479). -/
structure PositionMsg where
  rt_id : ℕ
  upd : List Char
  date : List Char
  lat : Option ℝ
  lng : Option ℝ
  vel : ℝ

/-- One entry of the stops list of an esta-info message (lines 569-585).
    Arrival, departure and esta_time instants are kept as epoch seconds
    (`none` for the null of calculateEstimatedTime; the JS rendering of the
    instants to digit strings is not modelled, no claim inspects it). -/
structure EstaStopEntry where
  stop_id : ℕ
  stop_code : List Char
  stop_nam : List Char
  arr : Option ℝ
  dep : Option ℝ
  esta_dist : Option ℝ
  esta_time : Option ℝ

/-- The pos block of an esta-info message (lines 607-612). -/
structure PosBlock where
  lat : Option ℝ
  lng : Option ℝ
  vel : ℝ
  time : List Char

/-- The static capacity block (lines 613-618). -/
structure BusBlock where
  pas : ℕ
  cap : ℕ
  cap_seated : ℕ
  cap_standing : ℕ

/-- An esta-info message (lines 600-619 and 631-649). -/
structure EstaInfoMsg where
  rt_id : ℕ
  upd : List Char
  date : List Char
  stops : List EstaStopEntry
  pos : PosBlock
  bus : BusBlock

/-- The outbound messages handed to the injected broadcast function. -/
inductive OutMsg where
  | close (m : CloseMsg)
  | position (m : PositionMsg)
  | estaInfo (m : EstaInfoMsg)

/-- calculateEstimatedTime (lines 65-83): null when the velocity is not
    positive, otherwise the instant now + distance / velocity (the JS
    rendering of that instant as YYYYMMDD HHmmss is not modelled). -/
noncomputable def calculateEstimatedTime (distanceMeters velocityMps now : ℝ) : Option ℝ :=
  if velocityMps ≤ 0 then none else some (now + distanceMeters / velocityMps)

/-- The closest-stop scan of lines 525-542 (and identically lines
    694-711): index and distance of the first stop at strictly minimal
    valid distance; NaN distances are skipped. -/
noncomputable def closestStopIndex (clat clng : Option ℝ) (stops : List Stop) :
    Option (ℕ × ℝ) :=
  stops.enum.foldl
    (fun best e =>
      match haversineDistance clat clng (some e.2.lat) (some e.2.lon) with
      | none => best
      | some d =>
          match best with
          | none => some (e.1, d)
          | some (bi, bd) => if d < bd then some (e.1, d) else some (bi, bd))
    none

/-- Steps 2 and 3 of the pipeline (lines 391-433): the local
    currentSublineRtId and the stops cache after the possible route-change
    reset.  The matcher runs only when the updated history has reached the
    quorum and the stored main route equals the frame route; the matcher
    result, when non-null, is always adopted; on a main-route change the
    subline state and the stops cache are cleared. -/
noncomputable def inferSubline (catalog : Option SublineStops) (st : BusState)
    (routeId : ℕ) (history1 : List HistEntry) : Option ℕ × Option StopsCache :=
  if MIN_SIGNALS_FOR_DIRECTION ≤ history1.length ∧ st.mainRtId = some routeId then
    match matchBusToSublineByHistoryAndRoute catalog history1 with
    | some newId => (some newId, st.stopsForCurrentSublineRtId)
    | none => (st.currentSublineRtId, st.stopsForCurrentSublineRtId)
  else if st.mainRtId = some routeId then
    (st.currentSublineRtId, st.stopsForCurrentSublineRtId)
  else
    (none, none)

/-- Step 4 (lines 436-461): the close message for the old subline, emitted
    when the previous subline id is truthy and differs from the (possibly
    null) current one. -/
noncomputable def closeMsgsOf (st : BusState) (frame : RawFrame)
    (history1 : List HistEntry) (currentSublineRtId : Option ℕ) : List OutMsg :=
  match st.lastProcessedSublineRtId with
  | some p =>
      if p ≠ 0 ∧ some p ≠ currentSublineRtId then
        [OutMsg.close
          { rt_id := p
            upd := fmtCloseTs (jsOrStr st.lastProcessedTimestamp frame.timestamp)
            date := fmtCloseTs (jsOrStr st.lastProcessedTimestamp frame.timestamp)
            del := 0
            pass := ['0']
            lat := jsOrNum ((histPrev history1).bind (·.lat)) frame.lat
            lng := jsOrNum ((histPrev history1).bind (·.lng)) frame.lng
            stop_id := 0
            stop_code := ['-']
            stop_nam := ['-'] }]
      else []
  | none => []

/-- Step 5 (lines 464-492): the position message when the subline is known. -/
noncomputable def positionMsgsOf (frame : RawFrame)
    (currentSublineRtId : Option ℕ) : List OutMsg :=
  match currentSublineRtId with
  | some id =>
      [OutMsg.position
        { rt_id := id
          upd := fmtPositionTs frame.timestamp
          date := fmtPositionTs frame.timestamp
          lat := frame.lat
          lng := frame.lng
          vel := frame.velocity * 3.6 }]
  | none => []

/-- Step 6 (lines 495-666): refresh the stops cache when its subline id
    does not match (a failed or missing fetch is cached as an empty stop
    list, lines 507-510), then emit the esta-info message when the cached
    stop list is non-empty and a closest stop exists.  Returns the final
    cache and the messages. -/
noncomputable def estaStepOf (catalog : Option SublineStops) (now : ℝ)
    (frame : RawFrame) (cache1 : Option StopsCache)
    (currentSublineRtId : Option ℕ) : Option StopsCache × List OutMsg :=
  match currentSublineRtId with
  | none => (cache1, [])
  | some id =>
      let cacheFetched :=
        if cache1.map (·.rtId) ≠ some id then
          match catalog with
          | some m =>
              match lookupList m id with
              | some stops => some (StopsCache.mk id stops)
              | none => some (StopsCache.mk id [])
          | none => some (StopsCache.mk id [])
        else cache1
      match cacheFetched with
      | some c =>
          if c.rtId = id ∧ c.stops ≠ [] then
            match closestStopIndex frame.lat frame.lng c.stops with
            | none => (cacheFetched, [])
            | some ci =>
                let upcoming := (c.stops.drop (ci.1 + 1)).take 5
                let entries := upcoming.map (fun stop =>
                  let dist :=
                    haversineDistance frame.lat frame.lng (some stop.lat) (some stop.lon)
                  let est : Option ℝ :=
                    match dist with
                    | some d => calculateEstimatedTime d frame.velocity now
                    | none => none
                  EstaStopEntry.mk stop.id stop.cod stop.nam est
                    (est.map (· + STOP_DEPARTURE_ADD_SECONDS)) dist est)
                (cacheFetched,
                  [OutMsg.estaInfo
                    { rt_id := id
                      upd := fmtEstaTs frame.timestamp
                      date := fmtEstaTs frame.timestamp
                      stops := entries
                      pos :=
                        { lat := frame.lat
                          lng := frame.lng
                          vel := frame.velocity * 3.6
                          time := fmtEstaTs frame.timestamp }
                      bus := ⟨0, 50, 30, 20⟩ }])
          else (cacheFetched, [])
      | none => (cacheFetched, [])

/-- Step 1 (lines 371-389): the updated history ring. -/
noncomputable def processHistory (prevState : Option BusState) (frame : RawFrame) :
    List HistEntry :=
  jsLastN HISTORY_SIZE ((prevState.getD initialBusState).history ++
    [⟨frame.lat, frame.lng, frame.timestamp⟩])

/-- Steps 2 and 3 on the updated history. -/
noncomputable def processInference (catalog : Option SublineStops)
    (prevState : Option BusState) (frame : RawFrame) : Option ℕ × Option StopsCache :=
  inferSubline catalog (prevState.getD initialBusState) frame.routeId
    (processHistory prevState frame)

/-- processLocationData (lines 362-678) for one bus.  The result of both
    getOrderedStopsForRouteSublines calls within the frame (matcher, line
    271, and esta-info, line 503) is the `catalog` parameter; `now` is
    Date.now() in epoch seconds; `prevState` is activeBusStates.get(busId).
    Returns the committed state and the broadcast messages in emission
    order (close, position, esta-info). -/
noncomputable def processLocationData (catalog : Option SublineStops) (now : ℝ)
    (prevState : Option BusState) (frame : RawFrame) : BusState × List OutMsg :=
  ({ history := processHistory prevState frame
     mainRtId := some frame.routeId
     currentSublineRtId := (processInference catalog prevState frame).1
     lastProcessedSublineRtId := (processInference catalog prevState frame).1
     lastProcessedTimestamp := some frame.timestamp
     stopsForCurrentSublineRtId :=
       (estaStepOf catalog now frame (processInference catalog prevState frame).2
         (processInference catalog prevState frame).1).1 },
   closeMsgsOf (prevState.getD initialBusState) frame (processHistory prevState frame)
       (processInference catalog prevState frame).1 ++
     positionMsgsOf frame (processInference catalog prevState frame).1 ++
     (estaStepOf catalog now frame (processInference catalog prevState frame).2
       (processInference catalog prevState frame).1).2)

/-! ### Station query (lines 688-904) -/

/-- findUpcomingStopsOnSubline (lines 688-727): index of the closest stop
    in the sequence and the stops after it, or null when the list is empty
    or no stop has a valid distance. -/
noncomputable def findUpcomingStopsOnSubline (stopsOnSubline : List Stop)
    (currentLat currentLng : Option ℝ) : Option (ℕ × List Stop) :=
  if stopsOnSubline = [] then none
  else
    match closestStopIndex currentLat currentLng stopsOnSubline with
    | none => none
    | some ci => some (ci.1, stopsOnSubline.drop (ci.1 + 1))

/-- A departure hint as pushed at lines 858-873.  estimated_time_seconds
    is `none` for Infinity; estimated_arrival_at_station is the instant in
    epoch seconds or `none` for null. -/
structure DepartureHint where
  rt_id : ℕ
  bus_id : List Char
  current_pos_lat : Option ℝ
  current_pos_lng : Option ℝ
  current_vel : Option ℝ
  estimated_arrival_at_station : Option ℝ
  estimated_time_seconds : Option ℝ
  distance_to_station_meters : Option ℝ

/-- The sort comparator of lines 886-891: ascending estimated time with
    Infinity values at the tail. -/
noncomputable def departureLE (a b : DepartureHint) : Bool :=
  match a.estimated_time_seconds, b.estimated_time_seconds with
  | none, _ => false
  | some _, none => true
  | some x, some y => decide (x ≤ y)

/-- One iteration of the bus loop (lines 796-882). -/
noncomputable def stationBusStep (targetStationId : ℕ) (now : ℝ)
    (sublineIds : List ℕ) (stopsBySubline : List (ℕ × List Stop))
    (acc : List DepartureHint) (e : List Char × BusState) : List DepartureHint :=
  match e.2.currentSublineRtId with
  | none => acc
  | some currentRtId =>
      if currentRtId ≠ 0 ∧ currentRtId ∈ sublineIds then
        -- busState.lat, busState.lng and busState.velocity (lines
        -- 801-803): the state object committed by processLocationData
        -- has no such properties, so the reads yield undefined
        let currentLat : Option ℝ := none
        let currentLng : Option ℝ := none
        let currentVel : Option ℝ := none
        match lookupList stopsBySubline currentRtId with
        | none => acc
        | some stopsOnBusSubline =>
            if stopsOnBusSubline = [] then acc
            else
              match stopsOnBusSubline.findIdx? (fun s => s.id = targetStationId) with
              | none => acc
              | some targetStopIndex =>
                  match findUpcomingStopsOnSubline stopsOnBusSubline currentLat currentLng with
                  | none => acc
                  | some seqInfo =>
                      if seqInfo.1 < targetStopIndex then
                        match stopsOnBusSubline.get? targetStopIndex with
                        | none => acc
                        | some targetStopDetails =>
                            let distanceToTarget := haversineDistance currentLat currentLng
                              (some targetStopDetails.lat) (some targetStopDetails.lon)
                            let est : Option ℝ :=
                              match currentVel with
                              | some v =>
                                  if v > 0.5 then distanceToTarget.map (fun d => d / v)
                                  else none
                              | none => none
                            acc ++ [{ rt_id := currentRtId
                                      bus_id := e.1
                                      current_pos_lat := currentLat
                                      current_pos_lng := currentLng
                                      current_vel := currentVel
                                      estimated_arrival_at_station := est.map (fun t => now + t)
                                      estimated_time_seconds := est
                                      distance_to_station_meters := distanceToTarget }]
                      else acc
      else acc

/-- getSublinesWithBusesToStation (lines 740-904).  The two DB queries are
    the parameters sublineIds (ids of the sublines serving the station,
    ascending) and stopsBySubline (their ordered stop lists);
    activeStates is the snapshot of activeBusStates in iteration order. -/
noncomputable def getSublinesWithBusesToStation (targetStationId : ℕ) (limit : ℕ)
    (now : ℝ) (sublineIds : List ℕ) (stopsBySubline : List (ℕ × List Stop))
    (activeStates : List (List Char × BusState)) : List DepartureHint :=
  if sublineIds = [] then []
  else
    let potentialDepartures := activeStates.foldl
      (stationBusStep targetStationId now sublineIds stopsBySubline) []
    (potentialDepartures.mergeSort departureLE).take limit

/-! ### Driver WebSocket message handler (src/server.js, lines 147-176) -/

/-- Outcome of JSON.parse plus the object check on one inbound frame. -/
inductive DriverInbound where
  | invalidJson
  | nonObject
  | parsed (frame : RawFrame)

/-- What the handler does with one inbound frame: reply with an error
    object on the same socket, or hand the frame to processLocationData. -/
inductive DriverAction where
  | errorReply (message : List Char)
  | processed (result : BusState × List OutMsg)

def errInvalidJson : List Char := "Invalid JSON received".toList

def errMissingBusId : List Char := "Valid object with busId required".toList

/-- The driver message handler (src/server.js lines 147-176): malformed
    JSON and objects without a truthy busId get an error reply and are
    discarded; everything else is processed. -/
noncomputable def handleDriverMessage (catalog : Option SublineStops) (now : ℝ)
    (prevState : Option BusState) : DriverInbound → DriverAction
  | DriverInbound.invalidJson => DriverAction.errorReply errInvalidJson
  | DriverInbound.nonObject => DriverAction.errorReply errMissingBusId
  | DriverInbound.parsed frame =>
      match frame.busId with
      | some b =>
          if b ≠ [] then DriverAction.processed (processLocationData catalog now prevState frame)
          else DriverAction.errorReply errMissingBusId
      | none => DriverAction.errorReply errMissingBusId

/-! ### Specification-side definitions

    These follow the wording of the specification and are compared with
    the definitions translated from the source. -/

/-- Spec 4.3 step 3, for one adjacent stop pair (p, q) of a subline: the
    candidate (subline_id, score) when α = bearing(p, q) is defined and
    δ = min(|β − α|, 360 − |β − α|) ≤ 45, with score = 45 − δ. -/
noncomputable def specSegmentScore (avgBearing : ℝ) (sublineId : ℕ)
    (pq : Stop × Stop) : Option (ℕ × ℝ) :=
  match calculateBearing (some pq.1.lat) (some pq.1.lon) (some pq.2.lat) (some pq.2.lon) with
  | none => none
  | some α =>
      let δ := min |avgBearing - α| (360 - |avgBearing - α|)
      if δ ≤ DIRECTION_MATCH_THRESHOLD_DEGREES then
        some (sublineId, DIRECTION_MATCH_THRESHOLD_DEGREES - δ)
      else none

/-- Spec 4.3 step 3: all candidates in encounter order — sublines in map
    iteration order, those with fewer than 2 stops skipped, and the
    adjacent stop pairs of each subline in ascending stop order. -/
noncomputable def specCandidates (avgBearing : ℝ) (m : SublineStops) : List (ℕ × ℝ) :=
  m.flatMap (fun entry =>
    if entry.2.length < 2 then []
    else (sublineSegments entry.2).filterMap (specSegmentScore avgBearing entry.1))

/-- Spec 4.3 step 4 with the tie-break rule: the first-encountered
    candidate whose score is not strictly exceeded by any later one. -/
noncomputable def firstMax : List (ℕ × ℝ) → Option (ℕ × ℝ)
  | [] => none
  | c :: rest =>
      match firstMax rest with
      | none => some c
      | some b => if b.2 > c.2 then some b else some c

/-- The strict-improvement update of the running best (score must
    strictly exceed the current best; the initial best is none for the
    (null, -Infinity) pair). -/
noncomputable def updBest (best : Option (ℕ × ℝ)) (cand : ℕ × ℝ) : Option (ℕ × ℝ) :=
  match best with
  | none => some cand
  | some b => if cand.2 > b.2 then some cand else some b

/-- Spec 4.1: the qualifying segment bearings of a history — adjacent
    pairs, those below the 1.0 m noise floor skipped. -/
noncomputable def specQualifyingBearings (h : List HistEntry) : List ℝ :=
  (h.zip h.tail).filterMap (fun pc => segmentBearing pc.1 pc.2)

/-- Spec 4.1: circular mean via unit-vector sums (Σcos, Σsin) and atan2,
    normalised to [0, 360). -/
noncomputable def specCircularMean (bearings : List ℝ) : ℝ :=
  jsFmod
    (atan2 ((bearings.map (fun b => Real.sin (b * Real.pi / 180))).sum)
        ((bearings.map (fun b => Real.cos (b * Real.pi / 180))).sum) * 180 / Real.pi + 360)
    360

/-- Spec 6.3: a compact 14-character all-digit timestamp. -/
def isCompactTs (l : List Char) : Prop := l.length = 14 ∧ ∀ c ∈ l, c.isDigit

/-- Message classifiers. -/
def isCloseMsg : OutMsg → Bool
  | OutMsg.close _ => true
  | _ => false

def isPositionMsg : OutMsg → Bool
  | OutMsg.position _ => true
  | _ => false

def isEstaMsg : OutMsg → Bool
  | OutMsg.estaInfo _ => true
  | _ => false

/-! ### Basic lemmas -/

lemma jsLastN_length_le {α : Type} (n : ℕ) (l : List α) : (jsLastN n l).length ≤ n := by
  unfold jsLastN
  split
  · simp only [List.length_drop]
    omega
  · omega

lemma jsLastN_suffix {α : Type} (n : ℕ) (l : List α) : jsLastN n l <:+ l := by
  unfold jsLastN
  split
  · exact List.drop_suffix _ _
  · exact List.suffix_refl l

lemma haversineDistance_fst_none (b c d : Option ℝ) :
    haversineDistance none b c d = none := by
  cases b <;> cases c <;> cases d <;> rfl

lemma closestStopIndex_fst_none (clng : Option ℝ) (stops : List Stop) :
    closestStopIndex none clng stops = none := by
  unfold closestStopIndex
  have h : ∀ (l : List (ℕ × Stop)) (acc : Option (ℕ × ℝ)),
      l.foldl
        (fun best e =>
          match haversineDistance none clng (some e.2.lat) (some e.2.lon) with
          | none => best
          | some d =>
              match best with
              | none => some (e.1, d)
              | some (bi, bd) => if d < bd then some (e.1, d) else some (bi, bd))
        acc = acc := by
    intro l
    induction l with
    | nil => intro acc; rfl
    | cons e t ih =>
        intro acc
        rw [List.foldl_cons, haversineDistance_fst_none]
        exact ih acc
  exact h _ none

lemma findUpcomingStopsOnSubline_fst_none (stops : List Stop) (clng : Option ℝ) :
    findUpcomingStopsOnSubline stops none clng = none := by
  unfold findUpcomingStopsOnSubline
  split
  · rfl
  · rw [closestStopIndex_fst_none]

lemma stationBusStep_fixed (targetStationId : ℕ) (now : ℝ) (sublineIds : List ℕ)
    (stopsBySubline : List (ℕ × List Stop)) (acc : List DepartureHint)
    (e : List Char × BusState) :
    stationBusStep targetStationId now sublineIds stopsBySubline acc e = acc := by
  unfold stationBusStep
  split
  · rfl
  · split
    · dsimp only
      split
      · rfl
      · split
        · rfl
        · split
          · rfl
          · rw [findUpcomingStopsOnSubline_fst_none]
    · rfl

/-- Claim C8: after each processed frame the committed history is the JS
    slice(-5) of the previous history with the new sample appended, hence
    has length at most 5 and is a suffix (the newest samples in arrival
    order) of the pushed history. -/
theorem C8_history_ring (catalog : Option SublineStops) (now : ℝ)
    (prevState : Option BusState) (frame : RawFrame) :
    (processLocationData catalog now prevState frame).1.history =
      jsLastN HISTORY_SIZE ((prevState.getD initialBusState).history ++
        [⟨frame.lat, frame.lng, frame.timestamp⟩]) ∧
    (processLocationData catalog now prevState frame).1.history.length ≤ HISTORY_SIZE ∧
    (processLocationData catalog now prevState frame).1.history <:+
      (prevState.getD initialBusState).history ++ [⟨frame.lat, frame.lng, frame.timestamp⟩] := by
  refine ⟨rfl, ?_, ?_⟩
  · exact jsLastN_length_le _ _
  · exact jsLastN_suffix _ _

/-- Claim C2: getSublinesWithBusesToStation never returns a hint.  The bus
    loop reads busState.lat, busState.lng and busState.velocity, which the
    state objects committed by processLocationData never carry, so every
    distance is NaN, no closest stop is ever found and every bus is
    skipped; the result is always the empty list — contradicting the
    specified behaviour (a hint with t ≈ d / v for every approaching bus). -/
theorem C2_station_query_always_empty (targetStationId limit : ℕ) (now : ℝ)
    (sublineIds : List ℕ) (stopsBySubline : List (ℕ × List Stop))
    (activeStates : List (List Char × BusState)) :
    getSublinesWithBusesToStation targetStationId limit now sublineIds stopsBySubline
      activeStates = [] := by
  unfold getSublinesWithBusesToStation
  split
  · rfl
  · have h : ∀ (l : List (List Char × BusState)) (acc : List DepartureHint),
        l.foldl (stationBusStep targetStationId now sublineIds stopsBySubline) acc = acc := by
      intro l
      induction l with
      | nil => intro acc; rfl
      | cons e t ih =>
          intro acc
          rw [List.foldl_cons, stationBusStep_fixed]
          exact ih acc
    rw [h]
    simp

/-! ### Matcher refinement: the strict-improvement fold computes the
    first-encountered best candidate -/

lemma updBest_none (c : ℕ × ℝ) : updBest none c = some c := rfl

lemma updBest_some (bb c : ℕ × ℝ) :
    updBest (some bb) c = if c.2 > bb.2 then some c else some bb := rfl

lemma considerSegment_eq (avg : ℝ) (sid : ℕ) (best : Option (ℕ × ℝ)) (pq : Stop × Stop) :
    considerSegment avg sid best pq =
      match specSegmentScore avg sid pq with
      | none => best
      | some c => updBest best c := by
  unfold considerSegment specSegmentScore updBest
  dsimp only [calculateBearing]
  split
  · rcases best with _ | ⟨bid, bs⟩ <;> rfl
  · rfl

lemma foldl_considerSegment (avg : ℝ) (sid : ℕ) (l : List (Stop × Stop))
    (best : Option (ℕ × ℝ)) :
    l.foldl (considerSegment avg sid) best =
      (l.filterMap (specSegmentScore avg sid)).foldl updBest best := by
  induction l generalizing best with
  | nil => rfl
  | cons pq t ih =>
      rw [List.foldl_cons, considerSegment_eq]
      rcases h : specSegmentScore avg sid pq with _ | c
      · rw [List.filterMap_cons_none h]
        exact ih best
      · rw [List.filterMap_cons_some h, List.foldl_cons]
        exact ih (updBest best c)

lemma specCandidates_cons (avg : ℝ) (e : ℕ × List Stop) (t : SublineStops) :
    specCandidates avg (e :: t) =
      (if e.2.length < 2 then []
        else (sublineSegments e.2).filterMap (specSegmentScore avg e.1)) ++
        specCandidates avg t := by
  unfold specCandidates
  rw [List.flatMap_cons]

lemma foldl_considerSubline (avg : ℝ) (m : SublineStops) (best : Option (ℕ × ℝ)) :
    m.foldl (considerSubline avg) best = (specCandidates avg m).foldl updBest best := by
  induction m generalizing best with
  | nil => rfl
  | cons e t ih =>
      rw [List.foldl_cons, specCandidates_cons, List.foldl_append]
      by_cases hl : e.2.length < 2
      · rw [if_pos hl]
        have hcs : considerSubline avg best e = best := by
          unfold considerSubline
          rw [if_pos hl]
        rw [hcs]
        exact ih best
      · rw [if_neg hl]
        have hcs : considerSubline avg best e =
            (sublineSegments e.2).foldl (considerSegment avg e.1) best := by
          unfold considerSubline
          rw [if_neg hl]
        rw [hcs, foldl_considerSegment]
        exact ih _

lemma updBest_updBest (b : Option (ℕ × ℝ)) (c m : ℕ × ℝ) :
    updBest (updBest b c) m = updBest b (if m.2 > c.2 then m else c) := by
  rcases b with _ | bb
  · rw [updBest_none, updBest_some, updBest_none]
    by_cases hm : m.2 > c.2
    · rw [if_pos hm, if_pos hm]
    · rw [if_neg hm, if_neg hm]
  · rw [updBest_some]
    by_cases hc : c.2 > bb.2
    · rw [if_pos hc, updBest_some, updBest_some]
      by_cases hm : m.2 > c.2
      · rw [if_pos hm, if_pos hm, if_pos (by linarith : m.2 > bb.2)]
      · rw [if_neg hm, if_neg hm, if_pos hc]
    · rw [if_neg hc, updBest_some, updBest_some]
      by_cases hm : m.2 > c.2
      · rw [if_pos hm]
      · rw [if_neg hm, if_neg (by linarith : ¬ m.2 > bb.2), if_neg hc]

lemma firstMax_cons (c : ℕ × ℝ) (t : List (ℕ × ℝ)) :
    firstMax (c :: t) =
      match firstMax t with
      | none => some c
      | some b => if b.2 > c.2 then some b else some c := rfl

lemma foldl_updBest_firstMax (l : List (ℕ × ℝ)) (b : Option (ℕ × ℝ)) :
    l.foldl updBest b =
      match firstMax l with
      | none => b
      | some c => updBest b c := by
  induction l generalizing b with
  | nil => rfl
  | cons c t ih =>
      rw [List.foldl_cons, ih (updBest b c), firstMax_cons]
      rcases firstMax t with _ | m
      · rfl
      · show updBest (updBest b c) m =
          (match (if m.2 > c.2 then some m else some c) with
            | none => b
            | some x => updBest b x)
        rw [show (if m.2 > c.2 then some m else some c) =
            some (if m.2 > c.2 then m else c) from (apply_ite some _ m c).symm]
        exact updBest_updBest b c m

/-- The matcher equals the spec-side first-best selection whenever its
    preconditions hold. -/
lemma matchBus_eq_firstMax (β : ℝ) (m : SublineStops) (h : List HistEntry)
    (hlen : MIN_SIGNALS_FOR_DIRECTION ≤ h.length)
    (hβ : calculateAverageBearing h = some β) (hm : m ≠ []) :
    matchBusToSublineByHistoryAndRoute (some m) h =
      (firstMax (specCandidates β m)).map (·.1) := by
  unfold matchBusToSublineByHistoryAndRoute
  rw [if_neg (not_lt.mpr hlen), hβ]
  dsimp only
  have hm0 : ¬ (m.length = 0) := by simpa [List.length_eq_zero] using hm
  rw [if_neg hm0, foldl_considerSubline, foldl_updBest_firstMax]
  rcases firstMax (specCandidates β m) with _ | c
  · rfl
  · rfl

lemma specSegmentScore_fst (avg : ℝ) (sid : ℕ) (pq : Stop × Stop) (c : ℕ × ℝ)
    (h : specSegmentScore avg sid pq = some c) : c.1 = sid := by
  unfold specSegmentScore at h
  dsimp only [calculateBearing] at h
  split_ifs at h
  · cases h
    rfl

lemma foldl_considerSegment_shape (avg : ℝ) (sid : ℕ) (l : List (Stop × Stop)) :
    ∀ b, l.foldl (considerSegment avg sid) b = b ∨
      ∃ s, l.foldl (considerSegment avg sid) b = some (sid, s) := by
  induction l with
  | nil => intro b; exact Or.inl rfl
  | cons pq t ih =>
      intro b
      rw [List.foldl_cons]
      have hstep : considerSegment avg sid b pq = b ∨
          ∃ s, considerSegment avg sid b pq = some (sid, s) := by
        rw [considerSegment_eq]
        rcases h : specSegmentScore avg sid pq with _ | c
        · exact Or.inl rfl
        · have hc := specSegmentScore_fst avg sid pq c h
          dsimp only
          rcases b with _ | bb
          · rw [updBest_none]
            exact Or.inr ⟨c.2, by rw [← hc]⟩
          · rw [updBest_some]
            by_cases hcb : c.2 > bb.2
            · rw [if_pos hcb]
              exact Or.inr ⟨c.2, by rw [← hc]⟩
            · rw [if_neg hcb]
              exact Or.inl rfl
      rcases hstep with h1 | ⟨s, h1⟩
      · rw [h1]
        exact ih b
      · rw [h1]
        rcases ih (some (sid, s)) with h2 | ⟨s2, h2⟩
        · rw [h2]
          exact Or.inr ⟨s, rfl⟩
        · exact Or.inr ⟨s2, h2⟩

lemma foldl_considerSubline_sound (avg : ℝ) :
    ∀ (m : SublineStops) (b : Option (ℕ × ℝ)) (p : ℕ × ℝ),
      m.foldl (considerSubline avg) b = some p →
      b = some p ∨ ∃ e ∈ m, 2 ≤ e.2.length ∧ p.1 = e.1 := by
  intro m
  induction m with
  | nil => intro b p h; exact Or.inl h
  | cons e t ih =>
      intro b p h
      rw [List.foldl_cons] at h
      have hstep : considerSubline avg b e = b ∨
          (2 ≤ e.2.length ∧ ∃ s, considerSubline avg b e = some (e.1, s)) := by
        unfold considerSubline
        split
        · exact Or.inl rfl
        · rcases foldl_considerSegment_shape avg e.1 (sublineSegments e.2) b with h1 | ⟨s, h1⟩
          · exact Or.inl h1
          · exact Or.inr ⟨not_lt.mp ‹¬ e.2.length < 2›, s, h1⟩
      rcases hstep with h1 | ⟨hlen2, s, h1⟩
      · rw [h1] at h
        rcases ih b p h with h2 | ⟨e2, he2, hl, hp⟩
        · exact Or.inl h2
        · exact Or.inr ⟨e2, List.mem_cons_of_mem e he2, hl, hp⟩
      · rw [h1] at h
        rcases ih (some (e.1, s)) p h with h2 | ⟨e2, he2, hl, hp⟩
        · obtain rfl := Option.some.inj h2
          exact Or.inr ⟨e, List.mem_cons_self e t, hlen2, rfl⟩
        · exact Or.inr ⟨e2, List.mem_cons_of_mem e he2, hl, hp⟩

/-- A successful match names a catalog subline with at least two stops. -/
lemma matchBus_mem_catalog (m : SublineStops) (h : List HistEntry) (id : ℕ)
    (hid : matchBusToSublineByHistoryAndRoute (some m) h = some id) :
    ∃ stops, (id, stops) ∈ m ∧ 2 ≤ stops.length := by
  unfold matchBusToSublineByHistoryAndRoute at hid
  split at hid
  · exact Option.noConfusion hid
  · rcases hβ : calculateAverageBearing h with _ | β
    · rw [hβ] at hid
      exact Option.noConfusion hid
    · rw [hβ] at hid
      dsimp only at hid
      split at hid
      · exact Option.noConfusion hid
      · rcases hf : m.foldl (considerSubline β) none with _ | p
        · rw [hf] at hid
          exact Option.noConfusion hid
        · rw [hf] at hid
          have hpid : p.1 = id := Option.some.inj hid
          rcases foldl_considerSubline_sound β m none p hf with h2 | ⟨e, he, hl, hp⟩
          · exact Option.noConfusion h2
          · refine ⟨e.2, ?_, hl⟩
            rw [← hpid, hp]
            exact he

/-! ### Evaluation lemmas for atan2 and the JS remainder -/

lemma atan2_of_pos_left {y : ℝ} (hy : 0 < y) : atan2 y 0 = Real.pi / 2 := by
  unfold atan2
  have h : (⟨0, y⟩ : ℂ) = (y : ℂ) * Complex.I := by
    apply Complex.ext <;> simp
  rw [h, Complex.arg_real_mul _ hy, Complex.arg_I]

lemma atan2_of_neg_left {y : ℝ} (hy : y < 0) : atan2 y 0 = -(Real.pi / 2) := by
  unfold atan2
  have h : (⟨0, y⟩ : ℂ) = ((-y : ℝ) : ℂ) * (-Complex.I) := by
    apply Complex.ext <;> simp
  rw [h, Complex.arg_real_mul _ (by linarith), Complex.arg_neg_I]

lemma atan2_of_nonneg_right {x : ℝ} (hx : 0 ≤ x) : atan2 0 x = 0 := by
  unfold atan2
  have h : (⟨x, 0⟩ : ℂ) = (x : ℂ) := by
    apply Complex.ext <;> simp
  rw [h, Complex.arg_ofReal_of_nonneg hx]

lemma atan2_cos_sin {θ : ℝ} (h1 : -Real.pi < θ) (h2 : θ ≤ Real.pi) :
    atan2 (Real.sin θ) (Real.cos θ) = θ := by
  unfold atan2
  have h : (⟨Real.cos θ, Real.sin θ⟩ : ℂ) =
      (Real.cos θ : ℂ) + (Real.sin θ : ℂ) * Complex.I := by
    apply Complex.ext <;> simp [Complex.cos_ofReal_re, Complex.sin_ofReal_re]
  rw [h, Complex.ofReal_cos, Complex.ofReal_sin,
    Complex.arg_cos_add_sin_mul_I ⟨h1, h2⟩]

lemma jsFmod_of_nonneg_lt {x y : ℝ} (hx : 0 ≤ x) (hy : 0 < y) (h : x < y) :
    jsFmod x y = x := by
  unfold jsFmod jsTrunc
  rw [if_pos (div_nonneg hx hy.le)]
  have hfl : ⌊x / y⌋ = 0 := by
    rw [Int.floor_eq_zero_iff]
    exact ⟨div_nonneg hx hy.le, by rw [div_lt_one hy]; exact h⟩
  rw [hfl]
  push_cast
  ring

lemma jsFmod_in_once {x y : ℝ} (hy : 0 < y) (h1 : y ≤ x) (h2 : x < 2 * y) :
    jsFmod x y = x - y := by
  unfold jsFmod jsTrunc
  have hx : 0 ≤ x := le_trans hy.le h1
  rw [if_pos (div_nonneg hx hy.le)]
  have hfl : ⌊x / y⌋ = 1 := by
    rw [Int.floor_eq_iff]
    constructor
    · push_cast
      rw [le_div_iff hy]
      linarith
    · push_cast
      rw [div_lt_iff hy]
      linarith
  rw [hfl]
  push_cast
  ring

lemma norm_deg_450 : jsFmod (Real.pi / 2 * 180 / Real.pi + 360) 360 = 90 := by
  have h : Real.pi / 2 * 180 / Real.pi + 360 = 450 := by
    field_simp
    ring
  rw [h, jsFmod_in_once] <;> norm_num

lemma norm_deg_270 : jsFmod (-(Real.pi / 2) * 180 / Real.pi + 360) 360 = 270 := by
  have h : -(Real.pi / 2) * 180 / Real.pi + 360 = 270 := by
    field_simp
    ring
  rw [h, jsFmod_of_nonneg_lt] <;> norm_num

lemma norm_deg_405 : jsFmod (Real.pi / 4 * 180 / Real.pi + 360) 360 = 45 := by
  have h : Real.pi / 4 * 180 / Real.pi + 360 = 405 := by
    field_simp
    ring
  rw [h, jsFmod_in_once] <;> norm_num

/-! ### Closed-form geodesy evaluations on the equator -/

lemma calculateBearingR_equator_east {l1 l2 : ℝ} (h1 : 0 < l2 - l1)
    (h2 : l2 - l1 < 180) : calculateBearingR 0 l1 0 l2 = 90 := by
  unfold calculateBearingR
  dsimp only
  have e0 : (0 : ℝ) * Real.pi / 180 = 0 := by ring
  rw [e0, Real.sin_zero, Real.cos_zero]
  have hd1 : 0 < (l2 - l1) * Real.pi / 180 :=
    div_pos (mul_pos h1 Real.pi_pos) (by norm_num)
  have hd2 : (l2 - l1) * Real.pi / 180 < Real.pi := by
    rw [div_lt_iff (by norm_num : (0:ℝ) < 180)]
    nlinarith [Real.pi_pos]
  have hsin : 0 < Real.sin ((l2 - l1) * Real.pi / 180) :=
    Real.sin_pos_of_pos_of_lt_pi hd1 hd2
  have hy : Real.sin ((l2 - l1) * Real.pi / 180) * 1 =
      Real.sin ((l2 - l1) * Real.pi / 180) := by ring
  have hx : 1 * 0 - 0 * (1 * Real.cos ((l2 - l1) * Real.pi / 180)) = 0 := by ring
  rw [show (1:ℝ) * 0 - 0 * 1 * Real.cos ((l2 - l1) * Real.pi / 180) = 0 from by ring,
    show Real.sin ((l2 - l1) * Real.pi / 180) * 1 =
      Real.sin ((l2 - l1) * Real.pi / 180) from by ring,
    atan2_of_pos_left hsin, norm_deg_450]

lemma calculateBearingR_equator_west {l1 l2 : ℝ} (h1 : 0 < l1 - l2)
    (h2 : l1 - l2 < 180) : calculateBearingR 0 l1 0 l2 = 270 := by
  unfold calculateBearingR
  dsimp only
  have e0 : (0 : ℝ) * Real.pi / 180 = 0 := by ring
  rw [e0, Real.sin_zero, Real.cos_zero]
  have hd1 : -Real.pi < (l2 - l1) * Real.pi / 180 := by
    have h3 : (-180 : ℝ) < l2 - l1 := by linarith
    have h4 := mul_lt_mul_of_pos_right h3
      (show (0:ℝ) < Real.pi / 180 from div_pos Real.pi_pos (by norm_num))
    calc -Real.pi = -180 * (Real.pi / 180) := by ring
      _ < (l2 - l1) * (Real.pi / 180) := h4
      _ = (l2 - l1) * Real.pi / 180 := by ring
  have hd2 : (l2 - l1) * Real.pi / 180 < 0 := by
    have h5 : l2 - l1 < 0 := by linarith
    exact div_neg_of_neg_of_pos (mul_neg_of_neg_of_pos h5 Real.pi_pos) (by norm_num)
  have hsin : Real.sin ((l2 - l1) * Real.pi / 180) < 0 :=
    Real.sin_neg_of_neg_of_neg_pi_lt hd2 hd1
  rw [show (1:ℝ) * 0 - 0 * 1 * Real.cos ((l2 - l1) * Real.pi / 180) = 0 from by ring,
    show Real.sin ((l2 - l1) * Real.pi / 180) * 1 =
      Real.sin ((l2 - l1) * Real.pi / 180) from by ring,
    atan2_of_neg_left hsin, norm_deg_270]

lemma haversineDistanceR_equator {l1 l2 : ℝ} (hle : l1 ≤ l2) (h180 : l2 - l1 ≤ 180) :
    haversineDistanceR 0 l1 0 l2 = 6371000 * ((l2 - l1) * Real.pi / 180) := by
  unfold haversineDistanceR
  dsimp only
  have e0 : (0 : ℝ) * Real.pi / 180 = 0 := by ring
  have e00 : ((0 : ℝ) - 0) * Real.pi / 180 = 0 := by ring
  rw [e0, e00, Real.cos_zero]
  have hu0 : 0 ≤ (l2 - l1) * Real.pi / 180 / 2 := by
    have := Real.pi_pos
    have h1 : 0 ≤ l2 - l1 := by linarith
    positivity
  have huh : (l2 - l1) * Real.pi / 180 / 2 ≤ Real.pi / 2 := by
    rw [div_le_div_iff (by norm_num) (by norm_num)]
    nlinarith [Real.pi_pos]
  set u := (l2 - l1) * Real.pi / 180 / 2 with hu
  have hsin : 0 ≤ Real.sin u :=
    Real.sin_nonneg_of_nonneg_of_le_pi hu0 (by nlinarith [Real.pi_pos])
  have hcos : 0 ≤ Real.cos u :=
    Real.cos_nonneg_of_mem_Icc ⟨by nlinarith [Real.pi_pos], huh⟩
  have ha : (0 : ℝ) * 0 + 1 * 1 * Real.sin u * Real.sin u = Real.sin u * Real.sin u := by
    ring
  rw [show (0:ℝ) / 2 = 0 from by norm_num, Real.sin_zero, ha]
  have hsq : Real.sqrt (Real.sin u * Real.sin u) = Real.sin u :=
    Real.sqrt_mul_self hsin
  have hone : 1 - Real.sin u * Real.sin u = Real.cos u * Real.cos u := by
    have := Real.sin_sq_add_cos_sq u
    nlinarith [this]
  rw [hsq, hone, Real.sqrt_mul_self hcos,
    atan2_cos_sin (by nlinarith [Real.pi_pos]) (by nlinarith [Real.pi_pos])]
  rw [hu]
  ring

lemma haversineDistanceR_self (la lo : ℝ) : haversineDistanceR la lo la lo = 0 := by
  unfold haversineDistanceR
  dsimp only
  rw [show (la - la) * Real.pi / 180 = 0 from by ring,
    show (lo - lo) * Real.pi / 180 = 0 from by ring]
  rw [show (0:ℝ) / 2 = 0 from by norm_num, Real.sin_zero]
  rw [show (0:ℝ) * 0 + Real.cos (la * Real.pi / 180) * Real.cos (la * Real.pi / 180) * 0 * 0
      = 0 from by ring]
  rw [Real.sqrt_zero, show (1:ℝ) - 0 = 1 from by norm_num, Real.sqrt_one,
    atan2_of_nonneg_right zero_le_one]
  ring

/-! ### Concrete evaluation data -/

def tsA : List Char := "2024-01-02T03:04:05.678Z".toList

def hp0 : HistEntry := ⟨some 0, some 0, tsA⟩

def hp1 : HistEntry := ⟨some 0, some 1, tsA⟩

def hp2 : HistEntry := ⟨some 0, some 2, tsA⟩

/-- Three samples moving due east along the equator, one degree apart. -/
def histEast : List HistEntry := [hp0, hp1, hp2]

def stopA : Stop := ⟨1, [], 0, 0, [], [], 1⟩

def stopB : Stop := ⟨2, [], 0, 1, [], [], 2⟩

def stopC : Stop := ⟨3, [], 0, 1, [], [], 1⟩

def stopD : Stop := ⟨4, [], 0, 0, [], [], 2⟩

/-- Catalog with an eastbound subline 1 and a westbound subline 2. -/
def mapEastWest : SublineStops := [(1, [stopA, stopB]), (2, [stopC, stopD])]

lemma MIN_MOVEMENT_eq : MIN_MOVEMENT_THRESHOLD_METERS = 1 := by
  norm_num [MIN_MOVEMENT_THRESHOLD_METERS]

lemma DIRECTION_THRESHOLD_eq : DIRECTION_MATCH_THRESHOLD_DEGREES = 45 := by
  norm_num [DIRECTION_MATCH_THRESHOLD_DEGREES]

lemma segmentBearing_equator_east (t1 t2 : List Char) {a b : ℝ} (hab : 0 < b - a)
    (h180 : b - a < 180) (hbig : 1 ≤ 6371000 * ((b - a) * Real.pi / 180)) :
    segmentBearing ⟨some 0, some a, t1⟩ ⟨some 0, some b, t2⟩ = some 90 := by
  unfold segmentBearing
  rw [show haversineDistance (some 0) (some a) (some 0) (some b) =
      some (haversineDistanceR 0 a 0 b) from rfl]
  dsimp only
  rw [haversineDistanceR_equator (by linarith) h180.le, MIN_MOVEMENT_eq, if_pos hbig]
  rw [show calculateBearing (some 0) (some a) (some 0) (some b) =
      some (calculateBearingR 0 a 0 b) from rfl]
  rw [calculateBearingR_equator_east hab h180]

lemma one_le_deg_distance {a b : ℝ} (h : 1 ≤ b - a) :
    1 ≤ 6371000 * ((b - a) * Real.pi / 180) := by
  nlinarith [Real.pi_gt_three]

lemma calculateAverageBearing_histEast : calculateAverageBearing histEast = some 90 := by
  unfold calculateAverageBearing
  rw [if_neg (by simp [histEast] : ¬ histEast.length < 2)]
  have hseg1 : segmentBearing hp0 hp1 = some 90 := by
    unfold hp0 hp1
    exact segmentBearing_equator_east tsA tsA (by norm_num) (by norm_num)
      (one_le_deg_distance (by norm_num))
  have hseg2 : segmentBearing hp1 hp2 = some 90 := by
    unfold hp1 hp2
    exact segmentBearing_equator_east tsA tsA (by norm_num) (by norm_num)
      (one_le_deg_distance (by norm_num))
  have hcb : collectBearings histEast = [90, 90] := by
    show collectBearings [hp0, hp1, hp2] = [90, 90]
    rw [show collectBearings [hp0, hp1, hp2] =
        (segmentBearing hp0 hp1).toList ++
          ((segmentBearing hp1 hp2).toList ++ collectBearings [hp2]) from rfl]
    rw [hseg1, hseg2]
    rfl
  rw [hcb]
  rw [if_neg (by simp : ¬ ([(90:ℝ), 90] = []))]
  dsimp only
  rw [show ([(90:ℝ), 90].map (fun b => Real.sin (b * Real.pi / 180))).sum =
      Real.sin (90 * Real.pi / 180) + (Real.sin (90 * Real.pi / 180) + 0) from rfl]
  rw [show ([(90:ℝ), 90].map (fun b => Real.cos (b * Real.pi / 180))).sum =
      Real.cos (90 * Real.pi / 180) + (Real.cos (90 * Real.pi / 180) + 0) from rfl]
  rw [show (90:ℝ) * Real.pi / 180 = Real.pi / 2 from by ring,
    Real.sin_pi_div_two, Real.cos_pi_div_two]
  rw [show (0:ℝ) + (0 + 0) = 0 from by norm_num,
    show (1:ℝ) + (1 + 0) = 2 from by norm_num]
  rw [atan2_of_pos_left (by norm_num : (0:ℝ) < 2), norm_deg_450]

lemma specSegmentScore_AB : specSegmentScore 90 1 (stopA, stopB) = some (1, 45) := by
  unfold specSegmentScore
  rw [show calculateBearing (some (stopA, stopB).1.lat) (some (stopA, stopB).1.lon)
      (some (stopA, stopB).2.lat) (some (stopA, stopB).2.lon) =
      some (calculateBearingR 0 0 0 1) from rfl]
  dsimp only
  rw [calculateBearingR_equator_east (by norm_num) (by norm_num), DIRECTION_THRESHOLD_eq]
  norm_num

lemma specSegmentScore_CD : specSegmentScore 90 2 (stopC, stopD) = none := by
  unfold specSegmentScore
  rw [show calculateBearing (some (stopC, stopD).1.lat) (some (stopC, stopD).1.lon)
      (some (stopC, stopD).2.lat) (some (stopC, stopD).2.lon) =
      some (calculateBearingR 0 1 0 0) from rfl]
  dsimp only
  rw [calculateBearingR_equator_west (by norm_num) (by norm_num), DIRECTION_THRESHOLD_eq]
  norm_num

lemma specCandidates_mapEastWest : specCandidates 90 mapEastWest = [(1, 45)] := by
  unfold mapEastWest
  rw [specCandidates_cons, specCandidates_cons]
  rw [if_neg (by norm_num : ¬ ([stopA, stopB].length < 2)),
    if_neg (by norm_num : ¬ ([stopC, stopD].length < 2))]
  rw [show sublineSegments [stopA, stopB] = [(stopA, stopB)] from rfl,
    show sublineSegments [stopC, stopD] = [(stopC, stopD)] from rfl]
  rw [show List.filterMap (specSegmentScore 90 1) [(stopA, stopB)] =
      (specSegmentScore 90 1 (stopA, stopB)).toList ++ [] from by
        simp [List.filterMap_cons]
        rcases specSegmentScore 90 1 (stopA, stopB) with _ | c <;> rfl]
  rw [specSegmentScore_AB]
  rw [show List.filterMap (specSegmentScore 90 2) [(stopC, stopD)] =
      (specSegmentScore 90 2 (stopC, stopD)).toList ++ [] from by
        simp [List.filterMap_cons]
        rcases specSegmentScore 90 2 (stopC, stopD) with _ | c <;> rfl]
  rw [specSegmentScore_CD]
  rfl

/-- The matcher on the eastbound history against the east/west catalog
    picks the eastbound subline. -/
lemma matcher_eval :
    matchBusToSublineByHistoryAndRoute (some mapEastWest) histEast = some 1 := by
  rw [matchBus_eq_firstMax 90 mapEastWest histEast
    (by simp [histEast, MIN_SIGNALS_FOR_DIRECTION])
    calculateAverageBearing_histEast (by simp [mapEastWest])]
  rw [specCandidates_mapEastWest]
  rfl

lemma calculateBearingR_00_4590 : calculateBearingR 0 0 45 90 = 45 := by
  unfold calculateBearingR
  dsimp only
  rw [show (0:ℝ) * Real.pi / 180 = 0 from by ring,
    show (45:ℝ) * Real.pi / 180 = Real.pi / 4 from by ring,
    show ((90:ℝ) - 0) * Real.pi / 180 = Real.pi / 2 from by ring]
  rw [Real.sin_pi_div_two, Real.cos_pi_div_four, Real.sin_pi_div_four,
    Real.cos_zero, Real.sin_zero, Real.cos_pi_div_two]
  rw [show (1:ℝ) * (Real.sqrt 2 / 2) = Real.sqrt 2 / 2 from by ring,
    show Real.sqrt 2 / 2 - 0 * (Real.sqrt 2 / 2) * 0 = Real.sqrt 2 / 2 from by ring]
  have h45 : atan2 (Real.sqrt 2 / 2) (Real.sqrt 2 / 2) = Real.pi / 4 := by
    nth_rewrite 2 [← Real.cos_pi_div_four]
    rw [← Real.sin_pi_div_four]
    exact atan2_cos_sin (by nlinarith [Real.pi_pos]) (by nlinarith [Real.pi_pos])
  rw [h45, norm_deg_405]

lemma calculateBearingR_4590_00 : calculateBearingR 45 90 0 0 = 270 := by
  unfold calculateBearingR
  dsimp only
  rw [show (45:ℝ) * Real.pi / 180 = Real.pi / 4 from by ring,
    show (0:ℝ) * Real.pi / 180 = 0 from by ring,
    show ((0:ℝ) - 90) * Real.pi / 180 = -(Real.pi / 2) from by ring]
  rw [Real.sin_neg, Real.cos_neg, Real.sin_pi_div_two, Real.cos_pi_div_two,
    Real.sin_zero, Real.cos_zero]
  rw [show (-(1:ℝ)) * 1 = -1 from by ring,
    show Real.cos (Real.pi / 4) * 0 - Real.sin (Real.pi / 4) * 1 * 0 = 0 from by ring]
  rw [atan2_of_neg_left (by norm_num : (-1:ℝ) < 0)]
  exact norm_deg_270

/-! ### Claims C1 and C10: the matcher -/

/-- Claim C1: for every bus history of at least 3 samples whose average
    bearing β is defined and every non-empty subline map for the declared
    main route (iterated by ascending subline id, segments by ascending
    stop order), the matcher returns the subline id of the adjacent-stop
    segment with the best score 45 − δ among segments with δ ≤ 45°, a
    candidate being retained only on strict improvement so that on equal
    score the first-encountered subline wins; it returns none when no
    segment is within the threshold, and sublines with fewer than 2 stops
    are skipped with no error (they contribute no candidates). -/
theorem C1_matcher_first_best (h : List HistEntry) (β : ℝ) (m : SublineStops)
    (hlen : MIN_SIGNALS_FOR_DIRECTION ≤ h.length)
    (hβ : calculateAverageBearing h = some β)
    (hm : m ≠ []) (hsorted : m.Pairwise (fun a b => a.1 < b.1)) :
    matchBusToSublineByHistoryAndRoute (some m) h =
      (firstMax (specCandidates β m)).map (·.1) :=
  matchBus_eq_firstMax β m h hlen hβ hm

/-- Witness for C1 on the eastbound equator history and the east/west
    catalog: all hypotheses hold and the matcher picks subline 1. -/
theorem C1_matcher_first_best_witness :
    MIN_SIGNALS_FOR_DIRECTION ≤ histEast.length ∧
    calculateAverageBearing histEast = some 90 ∧
    mapEastWest ≠ [] ∧
    mapEastWest.Pairwise (fun a b => a.1 < b.1) ∧
    matchBusToSublineByHistoryAndRoute (some mapEastWest) histEast =
      (firstMax (specCandidates 90 mapEastWest)).map (·.1) ∧
    matchBusToSublineByHistoryAndRoute (some mapEastWest) histEast = some 1 := by
  have h1 : MIN_SIGNALS_FOR_DIRECTION ≤ histEast.length := by
    simp [histEast, MIN_SIGNALS_FOR_DIRECTION]
  have h3 : mapEastWest ≠ [] := by simp [mapEastWest]
  have h4 : mapEastWest.Pairwise (fun a b => a.1 < b.1) := by
    norm_num [mapEastWest, List.pairwise_cons]
  exact ⟨h1, calculateAverageBearing_histEast, h3, h4,
    C1_matcher_first_best histEast 90 mapEastWest h1
      calculateAverageBearing_histEast h3 h4,
    matcher_eval⟩

/-- Claim C10: the matcher returns none or a key of the catalog map whose
    stop list has at least 2 stops — never a subline outside the declared
    main route. -/
theorem C10_matcher_stays_in_catalog (catalog : Option SublineStops)
    (m : SublineStops) (h : List HistEntry) (id : ℕ)
    (hcat : catalog = some m)
    (hid : matchBusToSublineByHistoryAndRoute catalog h = some id) :
    ∃ stops, (id, stops) ∈ m ∧ 2 ≤ stops.length := by
  subst hcat
  exact matchBus_mem_catalog m h id hid

/-- Witness for C10: the matched subline 1 is a catalog key with 2 stops. -/
theorem C10_matcher_stays_in_catalog_witness :
    matchBusToSublineByHistoryAndRoute (some mapEastWest) histEast = some 1 ∧
    ∃ stops, (1, stops) ∈ mapEastWest ∧ 2 ≤ stops.length :=
  ⟨matcher_eval,
    C10_matcher_stays_in_catalog (some mapEastWest) mapEastWest histEast 1 rfl
      matcher_eval⟩

/-! ### Claim C4: the average bearing -/

lemma collectBearings_eq (h : List HistEntry) :
    collectBearings h = specQualifyingBearings h := by
  induction h with
  | nil => rfl
  | cons a t ih =>
      cases t with
      | nil => rfl
      | cons b r =>
          unfold specQualifyingBearings at ih ⊢
          rw [show collectBearings (a :: b :: r) =
              (segmentBearing a b).toList ++ collectBearings (b :: r) from rfl]
          rw [ih]
          rw [show ((a :: b :: r).zip (a :: b :: r).tail) =
              (a, b) :: ((b :: r).zip (b :: r).tail) from rfl]
          rw [List.filterMap_cons]
          rcases hseg : segmentBearing a b with _ | v
          · simp [hseg]
          · simp [hseg]

/-- Claim C4: calculateAverageBearing skips adjacent pairs below the 1.0 m
    noise floor, computes the bearing of each remaining pair and returns
    their circular mean via unit-vector sums and atan2 normalised into
    [0, 360); it returns none whenever no qualifying segment exists, in
    particular whenever all consecutive distances are below the floor. -/
theorem C4_average_bearing (h : List HistEntry) :
    (calculateAverageBearing h =
      if specQualifyingBearings h = [] then none
      else some (specCircularMean (specQualifyingBearings h))) ∧
    ((∀ pc ∈ h.zip h.tail, ∀ d,
        haversineDistance pc.1.lat pc.1.lng pc.2.lat pc.2.lng = some d →
        d < MIN_MOVEMENT_THRESHOLD_METERS) →
      calculateAverageBearing h = none) := by
  have heq : calculateAverageBearing h =
      if specQualifyingBearings h = [] then none
      else some (specCircularMean (specQualifyingBearings h)) := by
    unfold calculateAverageBearing specCircularMean
    by_cases hlen : h.length < 2
    · rw [if_pos hlen]
      have hnil : specQualifyingBearings h = [] := by
        unfold specQualifyingBearings
        match h, hlen with
        | [], _ => rfl
        | [a], _ => rfl
        | a :: b :: r, hlen => exact absurd hlen (by simp)
      rw [hnil, if_pos rfl]
    · rw [if_neg hlen, ← collectBearings_eq]
  refine ⟨heq, fun hall => ?_⟩
  rw [heq, if_pos ?_]
  unfold specQualifyingBearings
  rw [List.filterMap_eq_nil]
  intro pc hpc
  unfold segmentBearing
  rcases hd : haversineDistance pc.1.lat pc.1.lng pc.2.lat pc.2.lng with _ | d
  · rfl
  · dsimp only
    rw [if_neg (not_le.mpr (hall pc hpc d hd))]

/-- Three identical samples: all adjacent distances are 0 m. -/
def histStill : List HistEntry := [hp0, hp0, hp0]

/-- Witness for C4: the all-below-noise-floor history yields none. -/
theorem C4_average_bearing_witness :
    (∀ pc ∈ histStill.zip histStill.tail, ∀ d,
        haversineDistance pc.1.lat pc.1.lng pc.2.lat pc.2.lng = some d →
        d < MIN_MOVEMENT_THRESHOLD_METERS) ∧
    calculateAverageBearing histStill = none := by
  have hall : ∀ pc ∈ histStill.zip histStill.tail, ∀ d,
      haversineDistance pc.1.lat pc.1.lng pc.2.lat pc.2.lng = some d →
      d < MIN_MOVEMENT_THRESHOLD_METERS := by
    have hz : histStill.zip histStill.tail = [(hp0, hp0), (hp0, hp0)] := rfl
    rw [hz]
    intro pc hpc d hd
    have hcase : pc = (hp0, hp0) := by
      simp only [List.mem_cons, List.not_mem_nil, or_false] at hpc
      rcases hpc with h | h <;> exact h
    subst hcase
    rw [show haversineDistance (hp0, hp0).1.lat (hp0, hp0).1.lng (hp0, hp0).2.lat
        (hp0, hp0).2.lng = some (haversineDistanceR 0 0 0 0) from rfl,
      haversineDistanceR_self] at hd
    obtain rfl := (Option.some.inj hd).symm
    rw [MIN_MOVEMENT_eq]
    norm_num
  exact ⟨hall, (C4_average_bearing histStill).2 hall⟩

/-! ### Claim C9: forward and reverse bearings -/

/-- Counterexample for C9: at the finite pair a = (0°, 0°), b = (45°, 90°)
    both bearings are defined — 45° and 270° — and they differ by 225°,
    not by 180° modulo 360. -/
theorem C9_counterexample :
    calculateBearing (some 0) (some 0) (some 45) (some 90) = some 45 ∧
    calculateBearing (some 45) (some 90) (some 0) (some 0) = some 270 ∧
    ¬ ∃ k : ℤ, (45 : ℝ) - 270 = 180 + 360 * (k : ℝ) := by
  refine ⟨?_, ?_, ?_⟩
  · rw [show calculateBearing (some 0) (some 0) (some 45) (some 90) =
        some (calculateBearingR 0 0 45 90) from rfl, calculateBearingR_00_4590]
  · rw [show calculateBearing (some 45) (some 90) (some 0) (some 0) =
        some (calculateBearingR 45 90 0 0) from rfl, calculateBearingR_4590_00]
  · rintro ⟨k, hk⟩
    have h1 : ((360 * k : ℤ) : ℝ) = ((-405 : ℤ) : ℝ) := by push_cast; linarith
    have h2 : (360 * k : ℤ) = -405 := Int.cast_injective h1
    omega

/-- Claim C9 amended: for two distinct points on the equator whose
    longitude difference is strictly between 0° and 180°, the forward and
    reverse bearings (90° and 270°) differ by exactly 180° modulo 360. -/
theorem C9_reverse_bearing_equator (l1 l2 : ℝ) (h1 : 0 < l2 - l1)
    (h2 : l2 - l1 < 180) :
    ∃ b1 b2 : ℝ,
      calculateBearing (some 0) (some l1) (some 0) (some l2) = some b1 ∧
      calculateBearing (some 0) (some l2) (some 0) (some l1) = some b2 ∧
      ∃ k : ℤ, b1 - b2 = 180 + 360 * (k : ℝ) := by
  refine ⟨90, 270, ?_, ?_, ⟨-1, by push_cast; norm_num⟩⟩
  · rw [show calculateBearing (some 0) (some l1) (some 0) (some l2) =
        some (calculateBearingR 0 l1 0 l2) from rfl,
      calculateBearingR_equator_east h1 h2]
  · rw [show calculateBearing (some 0) (some l2) (some 0) (some l1) =
        some (calculateBearingR 0 l2 0 l1) from rfl,
      calculateBearingR_equator_west (by linarith) (by linarith)]

/-- Witness for the amended C9 at l1 = 0, l2 = 90. -/
theorem C9_reverse_bearing_equator_witness :
    (0:ℝ) < 90 - 0 ∧ (90:ℝ) - 0 < 180 ∧
    ∃ b1 b2 : ℝ,
      calculateBearing (some 0) (some 0) (some 0) (some 90) = some b1 ∧
      calculateBearing (some 0) (some 90) (some 0) (some 0) = some b2 ∧
      ∃ k : ℤ, b1 - b2 = 180 + 360 * (k : ℝ) :=
  ⟨by norm_num, by norm_num,
    C9_reverse_bearing_equator 0 90 (by norm_num) (by norm_num)⟩

/-! ### Pipeline message anatomy -/

lemma positionMsgs_no_close (frame : RawFrame) (cur : Option ℕ) :
    (positionMsgsOf frame cur).filter isCloseMsg = [] := by
  unfold positionMsgsOf
  rcases cur with _ | id <;> rfl

lemma estaStep_no_close (catalog : Option SublineStops) (now : ℝ) (frame : RawFrame)
    (cache : Option StopsCache) (cur : Option ℕ) :
    ((estaStepOf catalog now frame cache cur).2).filter isCloseMsg = [] := by
  unfold estaStepOf
  rcases cur with _ | id
  · rfl
  · dsimp only
    split
    · split
      · split
        · rfl
        · rfl
      · rfl
    · rfl

lemma closeMsgs_filter (st : BusState) (frame : RawFrame)
    (hist1 : List HistEntry) (cur : Option ℕ) :
    (closeMsgsOf st frame hist1 cur).filter isCloseMsg =
      closeMsgsOf st frame hist1 cur := by
  unfold closeMsgsOf
  rcases st.lastProcessedSublineRtId with _ | p
  · rfl
  · dsimp only
    split
    · rfl
    · rfl

/-- Claim C3 amended: a close message is emitted exactly when the previous
    subline id is a truthy (non-zero) value p that differs from the
    current subline id after the frame — including when the current id is
    none, as on a route change — and it carries p as rt_id, the previous
    frame position (falling back to the current one when absent or zero)
    and the previous frame timestamp (falling back to the current one). -/
theorem C3_close_on_transition (catalog : Option SublineStops) (now : ℝ)
    (prevState : Option BusState) (frame : RawFrame) :
    (processLocationData catalog now prevState frame).2.filter isCloseMsg =
      (match (prevState.getD initialBusState).lastProcessedSublineRtId with
        | some p =>
            if p ≠ 0 ∧
                some p ≠ (processLocationData catalog now prevState frame).1.currentSublineRtId then
              [OutMsg.close
                { rt_id := p
                  upd := fmtCloseTs (jsOrStr
                    (prevState.getD initialBusState).lastProcessedTimestamp frame.timestamp)
                  date := fmtCloseTs (jsOrStr
                    (prevState.getD initialBusState).lastProcessedTimestamp frame.timestamp)
                  del := 0
                  pass := ['0']
                  lat := jsOrNum ((histPrev (jsLastN HISTORY_SIZE
                    ((prevState.getD initialBusState).history ++
                      [⟨frame.lat, frame.lng, frame.timestamp⟩]))).bind (·.lat)) frame.lat
                  lng := jsOrNum ((histPrev (jsLastN HISTORY_SIZE
                    ((prevState.getD initialBusState).history ++
                      [⟨frame.lat, frame.lng, frame.timestamp⟩]))).bind (·.lng)) frame.lng
                  stop_id := 0
                  stop_code := ['-']
                  stop_nam := ['-'] }]
            else []
        | none => []) := by
  have hcur : (processLocationData catalog now prevState frame).1.currentSublineRtId =
      (processInference catalog prevState frame).1 := rfl
  rw [hcur]
  rw [show (processLocationData catalog now prevState frame).2 =
      (closeMsgsOf (prevState.getD initialBusState) frame (processHistory prevState frame)
        (processInference catalog prevState frame).1 ++
      positionMsgsOf frame (processInference catalog prevState frame).1) ++
      (estaStepOf catalog now frame (processInference catalog prevState frame).2
        (processInference catalog prevState frame).1).2 from rfl]
  rw [List.filter_append, List.filter_append, positionMsgs_no_close, estaStep_no_close,
    closeMsgs_filter, List.append_nil, List.append_nil]
  unfold closeMsgsOf
  rcases hp : (prevState.getD initialBusState).lastProcessedSublineRtId with _ | p
  · rfl
  · rfl

def tsB : List Char := "2024-01-02T03:00:00.000Z".toList

def hpa : HistEntry := ⟨some 1, some 11, tsB⟩

def hpb : HistEntry := ⟨some 2, some 12, tsB⟩

def hpe : HistEntry := ⟨some 3, some 13, tsB⟩

/-- A bus that was tracked on subline 1011 of main route 101. -/
def stateB : BusState :=
  ⟨[hpa, hpb, hpe], some 101, some 1011, some 1011, some tsB, some ⟨1011, []⟩⟩

/-- A frame that switches the driver to main route 202. -/
def frameB : RawFrame := ⟨202, some ['B', '1'], some 7, some 8, tsA, 3⟩

/-- Counterexample for C3: on a route change the current subline id
    becomes none, yet a close message for the old subline 1011 is emitted
    — the claim says no close is emitted when the current id is none. -/
theorem C3_counterexample :
    (processLocationData none 0 (some stateB) frameB).1.currentSublineRtId = none ∧
    (processLocationData none 0 (some stateB) frameB).2 =
      [OutMsg.close
        { rt_id := 1011
          upd := fmtCloseTs tsB
          date := fmtCloseTs tsB
          del := 0
          pass := ['0']
          lat := some 3
          lng := some 13
          stop_id := 0
          stop_code := ['-']
          stop_nam := ['-'] }] := by
  constructor
  · rfl
  · have h3 : jsOrNum (some (3:ℝ)) frameB.lat = some 3 := by
      show (if (3:ℝ) = 0 then frameB.lat else some (3:ℝ)) = some 3
      rw [if_neg (by norm_num : ¬ (3:ℝ) = 0)]
    have h13 : jsOrNum (some (13:ℝ)) frameB.lng = some 13 := by
      show (if (13:ℝ) = 0 then frameB.lng else some (13:ℝ)) = some 13
      rw [if_neg (by norm_num : ¬ (13:ℝ) = 0)]
    calc (processLocationData none 0 (some stateB) frameB).2
        = [OutMsg.close
            { rt_id := 1011
              upd := fmtCloseTs tsB
              date := fmtCloseTs tsB
              del := 0
              pass := ['0']
              lat := jsOrNum (some 3) frameB.lat
              lng := jsOrNum (some 13) frameB.lng
              stop_id := 0
              stop_code := ['-']
              stop_nam := ['-'] }] := rfl
      _ = _ := by rw [h3, h13]

/-! ### Claim C5: driver input validation -/

/-- A frame with a valid busId but an invalid (NaN) latitude. -/
def frameNaN : RawFrame := ⟨101, some ['B', '1'], none, some 3, tsA, 0⟩

/-- A frame without a busId. -/
def frameNoId : RawFrame := ⟨101, none, some 1, some 2, tsA, 0⟩

/-- Counterexample for C5: the frame with lat = NaN is not rejected — it
    is handed to processLocationData and the invalid coordinate is pushed
    into the history ring (the claim says the frame is rejected before
    step 1). -/
theorem C5_counterexample :
    handleDriverMessage none 0 none (DriverInbound.parsed frameNaN) =
      DriverAction.processed (processLocationData none 0 none frameNaN) ∧
    (processLocationData none 0 none frameNaN).1.history = [⟨none, some 3, tsA⟩] :=
  ⟨rfl, rfl⟩

/-- Claim C5 amended: malformed JSON and a missing (or empty) busId get an
    error reply on the same socket and the frame is discarded; but a frame
    with a truthy busId is always processed, and its coordinates — valid
    or not — are pushed into the history ring (malformed coordinates are
    not rejected before step 1). -/
theorem C5_driver_input_validation :
    (∀ (catalog : Option SublineStops) (now : ℝ) (prevState : Option BusState),
      handleDriverMessage catalog now prevState DriverInbound.invalidJson =
        DriverAction.errorReply errInvalidJson) ∧
    (∀ (catalog : Option SublineStops) (now : ℝ) (prevState : Option BusState),
      handleDriverMessage catalog now prevState DriverInbound.nonObject =
        DriverAction.errorReply errMissingBusId) ∧
    (∀ (catalog : Option SublineStops) (now : ℝ) (prevState : Option BusState)
        (frame : RawFrame), frame.busId = none ∨ frame.busId = some [] →
      handleDriverMessage catalog now prevState (DriverInbound.parsed frame) =
        DriverAction.errorReply errMissingBusId) ∧
    (∀ (catalog : Option SublineStops) (now : ℝ) (prevState : Option BusState)
        (frame : RawFrame) (b : List Char), frame.busId = some b → b ≠ [] →
      handleDriverMessage catalog now prevState (DriverInbound.parsed frame) =
        DriverAction.processed (processLocationData catalog now prevState frame) ∧
      (processLocationData catalog now prevState frame).1.history =
        jsLastN HISTORY_SIZE ((prevState.getD initialBusState).history ++
          [⟨frame.lat, frame.lng, frame.timestamp⟩])) := by
  refine ⟨fun _ _ _ => rfl, fun _ _ _ => rfl, ?_, ?_⟩
  · intro catalog now prevState frame h
    unfold handleDriverMessage
    dsimp only
    rcases h with h | h
    · rw [h]
    · rw [h]
      show (if ([] : List Char) ≠ [] then
          DriverAction.processed (processLocationData catalog now prevState frame)
        else DriverAction.errorReply errMissingBusId) =
        DriverAction.errorReply errMissingBusId
      rw [if_neg (by simp)]
  · intro catalog now prevState frame b hb hne
    refine ⟨?_, rfl⟩
    unfold handleDriverMessage
    dsimp only
    rw [hb]
    show (if b ≠ [] then
        DriverAction.processed (processLocationData catalog now prevState frame)
      else DriverAction.errorReply errMissingBusId) =
      DriverAction.processed (processLocationData catalog now prevState frame)
    rw [if_pos hne]

/-- Witness for the amended C5 at concrete inputs. -/
theorem C5_driver_input_validation_witness :
    handleDriverMessage none 0 none DriverInbound.invalidJson =
      DriverAction.errorReply errInvalidJson ∧
    handleDriverMessage none 0 none DriverInbound.nonObject =
      DriverAction.errorReply errMissingBusId ∧
    (frameNoId.busId = none ∨ frameNoId.busId = some []) ∧
    handleDriverMessage none 0 none (DriverInbound.parsed frameNoId) =
      DriverAction.errorReply errMissingBusId ∧
    frameNaN.busId = some ['B', '1'] ∧ (['B', '1'] : List Char) ≠ [] ∧
    (handleDriverMessage none 0 none (DriverInbound.parsed frameNaN) =
      DriverAction.processed (processLocationData none 0 none frameNaN) ∧
    (processLocationData none 0 none frameNaN).1.history =
      jsLastN HISTORY_SIZE ((none : Option BusState).getD initialBusState).history ++
        [(⟨none, some 3, tsA⟩ : HistEntry)]) := by
  refine ⟨C5_driver_input_validation.1 none 0 none,
    C5_driver_input_validation.2.1 none 0 none,
    Or.inl rfl,
    C5_driver_input_validation.2.2.1 none 0 none frameNoId (Or.inl rfl),
    rfl, by simp, ?_⟩
  have h := C5_driver_input_validation.2.2.2 none 0 none frameNaN ['B', '1'] rfl (by simp)
  exact ⟨h.1, h.2⟩

/-! ### Claim C6: storage-error handling -/

lemma matchBus_none_catalog (h : List HistEntry) :
    matchBusToSublineByHistoryAndRoute none h = none := by
  unfold matchBusToSublineByHistoryAndRoute
  split
  · rfl
  · rcases calculateAverageBearing h with _ | β <;> rfl

lemma inferSubline_route_match (catalog : Option SublineStops) (st : BusState)
    (routeId : ℕ) (hist : List HistEntry) (hroute : st.mainRtId = some routeId)
    (hmatch : matchBusToSublineByHistoryAndRoute catalog hist = none) :
    inferSubline catalog st routeId hist =
      (st.currentSublineRtId, st.stopsForCurrentSublineRtId) := by
  unfold inferSubline
  by_cases h1 : MIN_SIGNALS_FOR_DIRECTION ≤ hist.length ∧ st.mainRtId = some routeId
  · rw [if_pos h1, hmatch]
  · rw [if_neg h1, if_pos hroute]

lemma inferSubline_snd_of_some (catalog : Option SublineStops) (st : BusState)
    (routeId : ℕ) (hist : List HistEntry) (id : ℕ)
    (h : (inferSubline catalog st routeId hist).1 = some id) :
    (inferSubline catalog st routeId hist).2 = st.stopsForCurrentSublineRtId := by
  unfold inferSubline at h ⊢
  by_cases h1 : MIN_SIGNALS_FOR_DIRECTION ≤ hist.length ∧ st.mainRtId = some routeId
  · rw [if_pos h1]
    rcases matchBusToSublineByHistoryAndRoute catalog hist with _ | nid <;> rfl
  · rw [if_neg h1]
    by_cases h2 : st.mainRtId = some routeId
    · rw [if_pos h2]
    · exfalso
      rw [if_neg h1, if_neg h2] at h
      exact Option.noConfusion h

lemma closeMsgs_no_esta (st : BusState) (frame : RawFrame)
    (hist : List HistEntry) (cur : Option ℕ) :
    (closeMsgsOf st frame hist cur).filter isEstaMsg = [] := by
  unfold closeMsgsOf
  rcases st.lastProcessedSublineRtId with _ | p
  · rfl
  · dsimp only
    split
    · rfl
    · rfl

lemma positionMsgs_no_esta (frame : RawFrame) (cur : Option ℕ) :
    (positionMsgsOf frame cur).filter isEstaMsg = [] := by
  unfold positionMsgsOf
  rcases cur with _ | id <;> rfl

lemma estaStep_cached_empty (catalog : Option SublineStops) (now : ℝ)
    (frame : RawFrame) (id : ℕ) :
    estaStepOf catalog now frame (some ⟨id, []⟩) (some id) = (some ⟨id, []⟩, []) := by
  unfold estaStepOf
  dsimp only
  rw [if_neg (by simp : ¬ ((some (StopsCache.mk id [])).map (·.rtId) ≠ some id))]
  dsimp only
  rw [if_neg (by simp : ¬ ((StopsCache.mk id []).rtId = id ∧ (StopsCache.mk id []).stops ≠ []))]

lemma estaStep_fetch_none_catalog (now : ℝ) (frame : RawFrame)
    (cache : Option StopsCache) (id : ℕ) (hmiss : cache.map (·.rtId) ≠ some id) :
    estaStepOf none now frame cache (some id) = (some ⟨id, []⟩, []) := by
  unfold estaStepOf
  dsimp only
  rw [if_pos hmiss]
  dsimp only
  rw [if_neg (by simp : ¬ ((StopsCache.mk id []).rtId = id ∧ (StopsCache.mk id []).stops ≠ []))]

/-- Claim C6 amended: when the catalog read fails (none), the bus state is
    still committed with the updated history and, if the route matches,
    the current subline id is retained (the matcher returns none); if the
    stops cache does not already hold the current subline id, no esta-info
    is emitted and the failed fetch is cached as an empty stop list keyed
    by the current subline id.  Because an empty cached entry matches that
    key, subsequent frames do not retry the esta-info catalog lookup while
    the subline id stays the same: with any catalog, a state cached as
    (id, []) whose current subline stays id emits no esta-info and keeps
    the empty cache entry. -/
theorem C6_storage_error_semantics :
    (∀ (now : ℝ) (prevState : Option BusState) (frame : RawFrame),
      (processLocationData none now prevState frame).1.history =
        jsLastN HISTORY_SIZE ((prevState.getD initialBusState).history ++
          [⟨frame.lat, frame.lng, frame.timestamp⟩]) ∧
      ((prevState.getD initialBusState).mainRtId = some frame.routeId →
        (processLocationData none now prevState frame).1.currentSublineRtId =
          (prevState.getD initialBusState).currentSublineRtId)) ∧
    (∀ (now : ℝ) (prevState : Option BusState) (frame : RawFrame) (id : ℕ),
      (processInference none prevState frame).1 = some id →
      (processInference none prevState frame).2.map (·.rtId) ≠ some id →
      (processLocationData none now prevState frame).2.filter isEstaMsg = [] ∧
      (processLocationData none now prevState frame).1.stopsForCurrentSublineRtId =
        some ⟨id, []⟩) ∧
    (∀ (catalog : Option SublineStops) (now : ℝ) (prevState : Option BusState)
        (frame : RawFrame) (id : ℕ),
      (prevState.getD initialBusState).stopsForCurrentSublineRtId = some ⟨id, []⟩ →
      (processInference catalog prevState frame).1 = some id →
      (processLocationData catalog now prevState frame).2.filter isEstaMsg = [] ∧
      (processLocationData catalog now prevState frame).1.stopsForCurrentSublineRtId =
        some ⟨id, []⟩) := by
  refine ⟨?_, ?_, ?_⟩
  · intro now prevState frame
    refine ⟨rfl, fun hroute => ?_⟩
    rw [show (processLocationData none now prevState frame).1.currentSublineRtId =
        (inferSubline none (prevState.getD initialBusState) frame.routeId
          (processHistory prevState frame)).1 from rfl]
    rw [inferSubline_route_match none _ frame.routeId _ hroute (matchBus_none_catalog _)]
  · intro now prevState frame id hcur hmiss
    have hesta : estaStepOf none now frame (processInference none prevState frame).2
        (processInference none prevState frame).1 = (some ⟨id, []⟩, []) := by
      rw [hcur]
      exact estaStep_fetch_none_catalog now frame _ id hmiss
    constructor
    · rw [show (processLocationData none now prevState frame).2 =
          (closeMsgsOf (prevState.getD initialBusState) frame
            (processHistory prevState frame) (processInference none prevState frame).1 ++
          positionMsgsOf frame (processInference none prevState frame).1) ++
          (estaStepOf none now frame (processInference none prevState frame).2
            (processInference none prevState frame).1).2 from rfl]
      rw [List.filter_append, List.filter_append, closeMsgs_no_esta,
        positionMsgs_no_esta, hesta]
      rfl
    · rw [show (processLocationData none now prevState frame).1.stopsForCurrentSublineRtId =
          (estaStepOf none now frame (processInference none prevState frame).2
            (processInference none prevState frame).1).1 from rfl, hesta]
  · intro catalog now prevState frame id hcache hcur
    have h2 : (processInference catalog prevState frame).2 = some ⟨id, []⟩ := by
      rw [show (processInference catalog prevState frame).2 =
          (inferSubline catalog (prevState.getD initialBusState) frame.routeId
            (processHistory prevState frame)).2 from rfl,
        inferSubline_snd_of_some catalog _ frame.routeId _ id hcur]
      exact hcache
    have hesta : estaStepOf catalog now frame (processInference catalog prevState frame).2
        (processInference catalog prevState frame).1 = (some ⟨id, []⟩, []) := by
      rw [hcur, h2]
      exact estaStep_cached_empty catalog now frame id
    constructor
    · rw [show (processLocationData catalog now prevState frame).2 =
          (closeMsgsOf (prevState.getD initialBusState) frame
            (processHistory prevState frame) (processInference catalog prevState frame).1 ++
          positionMsgsOf frame (processInference catalog prevState frame).1) ++
          (estaStepOf catalog now frame (processInference catalog prevState frame).2
            (processInference catalog prevState frame).1).2 from rfl]
      rw [List.filter_append, List.filter_append, closeMsgs_no_esta,
        positionMsgs_no_esta, hesta]
      rfl
    · rw [show (processLocationData catalog now prevState frame).1.stopsForCurrentSublineRtId =
          (estaStepOf catalog now frame (processInference catalog prevState frame).2
            (processInference catalog prevState frame).1).1 from rfl, hesta]

lemma segmentBearing_hp0_hp0 : segmentBearing hp0 hp0 = none := by
  unfold segmentBearing
  rw [show haversineDistance hp0.lat hp0.lng hp0.lat hp0.lng =
      some (haversineDistanceR 0 0 0 0) from rfl]
  dsimp only
  rw [haversineDistanceR_self, MIN_MOVEMENT_eq]
  rw [if_neg (by norm_num : ¬ (1:ℝ) ≤ 0)]

lemma calcAvg_histStill : calculateAverageBearing histStill = none := by
  unfold calculateAverageBearing
  rw [if_neg (by simp [histStill] : ¬ histStill.length < 2)]
  have hcb : collectBearings histStill = [] := by
    show collectBearings [hp0, hp0, hp0] = []
    rw [show collectBearings [hp0, hp0, hp0] =
        (segmentBearing hp0 hp0).toList ++
          ((segmentBearing hp0 hp0).toList ++ collectBearings [hp0]) from rfl]
    rw [segmentBearing_hp0_hp0]
    rfl
  rw [hcb]
  rfl

lemma matchBus_histStill (catalog : Option SublineStops) :
    matchBusToSublineByHistoryAndRoute catalog histStill = none := by
  unfold matchBusToSublineByHistoryAndRoute
  rw [if_neg (by simp [histStill, MIN_SIGNALS_FOR_DIRECTION] :
    ¬ histStill.length < MIN_SIGNALS_FOR_DIRECTION)]
  rw [calcAvg_histStill]

/-- A bus on subline 1 of route 101 whose earlier stop fetch failed and was
    cached as an empty stop list. -/
def stateE : BusState := ⟨[hp0, hp0], some 101, some 1, some 1, some tsB, some ⟨1, []⟩⟩

/-- The same bus state without the cached failed fetch. -/
def stateF : BusState := ⟨[hp0, hp0], some 101, some 1, some 1, some tsB, none⟩

/-- A stationary frame at the position of hp0 on route 101. -/
def frameE : RawFrame := ⟨101, some ['B'], some 0, some 0, tsA, 1⟩

lemma processInference_stateE :
    processInference (some mapEastWest) (some stateE) frameE = (some 1, some ⟨1, []⟩) := by
  rw [show processInference (some mapEastWest) (some stateE) frameE =
      inferSubline (some mapEastWest) stateE 101 histStill from rfl]
  rw [inferSubline_route_match (some mapEastWest) stateE 101 histStill rfl
    (matchBus_histStill (some mapEastWest))]
  rfl

lemma processInference_stateF :
    processInference (some mapEastWest) (some stateF) frameE = (some 1, none) := by
  rw [show processInference (some mapEastWest) (some stateF) frameE =
      inferSubline (some mapEastWest) stateF 101 histStill from rfl]
  rw [inferSubline_route_match (some mapEastWest) stateF 101 histStill rfl
    (matchBus_histStill (some mapEastWest))]
  rfl

lemma estaStep_retry_fetch :
    (estaStepOf (some mapEastWest) 0 frameE none (some 1)).1 =
      some ⟨1, [stopA, stopB]⟩ := by
  unfold estaStepOf
  dsimp only
  rw [if_pos (by simp : ((none : Option StopsCache).map (·.rtId) ≠ some 1))]
  rw [show lookupList mapEastWest 1 = some [stopA, stopB] from rfl]
  dsimp only
  rw [if_pos (⟨rfl, by simp⟩ :
    (StopsCache.mk 1 [stopA, stopB]).rtId = 1 ∧ (StopsCache.mk 1 [stopA, stopB]).stops ≠ [])]
  rcases h : closestStopIndex frameE.lat frameE.lng (StopsCache.mk 1 [stopA, stopB]).stops
    with _ | ci
  · rfl
  · rfl

/-- Counterexample for C6: a failed stop fetch is cached in a way that does
    prevent retry.  stateE holds the empty cache entry (1, []) recorded
    after a storage error; on the next frame the catalog read succeeds
    (mapEastWest maps subline 1 to two stops) and the current subline stays
    1, yet no esta-info is emitted and the cache keeps the empty entry,
    while the identical state without the cached failure (stateF) fetches
    the two stops from the same catalog. -/
theorem C6_counterexample :
    lookupList mapEastWest 1 = some [stopA, stopB] ∧
    (processLocationData (some mapEastWest) 0 (some stateE) frameE).1.currentSublineRtId =
      some 1 ∧
    (processLocationData (some mapEastWest) 0 (some stateE) frameE).2.filter isEstaMsg
      = [] ∧
    (processLocationData (some mapEastWest) 0
      (some stateE) frameE).1.stopsForCurrentSublineRtId = some ⟨1, []⟩ ∧
    (processLocationData (some mapEastWest) 0
      (some stateF) frameE).1.stopsForCurrentSublineRtId = some ⟨1, [stopA, stopB]⟩ := by
  have hesta : estaStepOf (some mapEastWest) 0 frameE
      (processInference (some mapEastWest) (some stateE) frameE).2
      (processInference (some mapEastWest) (some stateE) frameE).1 = (some ⟨1, []⟩, []) := by
    rw [processInference_stateE]
    exact estaStep_cached_empty (some mapEastWest) 0 frameE 1
  refine ⟨rfl, ?_, ?_, ?_, ?_⟩
  · rw [show (processLocationData (some mapEastWest) 0
        (some stateE) frameE).1.currentSublineRtId =
        (processInference (some mapEastWest) (some stateE) frameE).1 from rfl,
      processInference_stateE]
  · rw [show (processLocationData (some mapEastWest) 0 (some stateE) frameE).2 =
        (closeMsgsOf stateE frameE (processHistory (some stateE) frameE)
          (processInference (some mapEastWest) (some stateE) frameE).1 ++
        positionMsgsOf frameE (processInference (some mapEastWest) (some stateE) frameE).1) ++
        (estaStepOf (some mapEastWest) 0 frameE
          (processInference (some mapEastWest) (some stateE) frameE).2
          (processInference (some mapEastWest) (some stateE) frameE).1).2 from rfl]
    rw [List.filter_append, List.filter_append, closeMsgs_no_esta,
      positionMsgs_no_esta, hesta]
    rfl
  · rw [show (processLocationData (some mapEastWest) 0
        (some stateE) frameE).1.stopsForCurrentSublineRtId =
        (estaStepOf (some mapEastWest) 0 frameE
          (processInference (some mapEastWest) (some stateE) frameE).2
          (processInference (some mapEastWest) (some stateE) frameE).1).1 from rfl, hesta]
  · rw [show (processLocationData (some mapEastWest) 0
        (some stateF) frameE).1.stopsForCurrentSublineRtId =
        (estaStepOf (some mapEastWest) 0 frameE
          (processInference (some mapEastWest) (some stateF) frameE).2
          (processInference (some mapEastWest) (some stateF) frameE).1).1 from rfl,
      processInference_stateF]
    exact estaStep_retry_fetch

/-- A bus on subline 7 of route 101 with a short history and no cache. -/
def stateC : BusState := ⟨[hp0], some 101, some 7, some 7, some tsB, none⟩

/-- The same bus with the failed fetch already cached as (7, []). -/
def stateC2 : BusState := ⟨[hp0], some 101, some 7, some 7, some tsB, some ⟨7, []⟩⟩

/-- A frame at the position of hp0 on route 101. -/
def frameC : RawFrame := ⟨101, some ['B'], some 0, some 0, tsA, 1⟩

/-- Witness for C6 at concrete inputs: a storage-error frame for stateC
    commits the history, keeps subline 7, emits no esta-info and caches
    (7, []); a frame for stateC2, already cached as (7, []), again emits
    no esta-info and keeps the empty cache entry. -/
theorem C6_storage_error_semantics_witness :
    ((processLocationData none 0 (some stateC) frameC).1.history =
        jsLastN HISTORY_SIZE (stateC.history ++
          [⟨frameC.lat, frameC.lng, frameC.timestamp⟩]) ∧
      (stateC.mainRtId = some frameC.routeId ∧
        (processLocationData none 0 (some stateC) frameC).1.currentSublineRtId =
          stateC.currentSublineRtId)) ∧
    ((processInference none (some stateC) frameC).1 = some 7 ∧
      (processInference none (some stateC) frameC).2.map (·.rtId) ≠ some 7 ∧
      (processLocationData none 0 (some stateC) frameC).2.filter isEstaMsg = [] ∧
      (processLocationData none 0 (some stateC) frameC).1.stopsForCurrentSublineRtId =
        some ⟨7, []⟩) ∧
    (stateC2.stopsForCurrentSublineRtId = some ⟨7, []⟩ ∧
      (processInference none (some stateC2) frameC).1 = some 7 ∧
      (processLocationData none 0 (some stateC2) frameC).2.filter isEstaMsg = [] ∧
      (processLocationData none 0 (some stateC2) frameC).1.stopsForCurrentSublineRtId =
        some ⟨7, []⟩) := by
  have hcur : (processInference none (some stateC) frameC).1 = some 7 := rfl
  have h2 : (processInference none (some stateC) frameC).2 = none := rfl
  have hmiss : (processInference none (some stateC) frameC).2.map (·.rtId) ≠ some 7 := by
    rw [h2]; simp
  have hcur2 : (processInference none (some stateC2) frameC).1 = some 7 := rfl
  refine ⟨?_, ?_, ?_⟩
  · have h := (C6_storage_error_semantics.1 0 (some stateC) frameC)
    exact ⟨h.1, rfl, h.2 rfl⟩
  · have h := C6_storage_error_semantics.2.1 0 (some stateC) frameC 7 hcur hmiss
    exact ⟨hcur, hmiss, h.1, h.2⟩
  · have h := C6_storage_error_semantics.2.2 none 0 (some stateC2) frameC 7 rfl hcur2
    exact ⟨rfl, hcur2, h.1, h.2⟩

/-! ### Claim C7: outbound timestamp formats

    new Date(ts).toISOString() always renders as YYYY-MM-DDTHH:mm:ss.sssZ;
    the shape is modelled with one variable per digit character. -/

/-- The 24-character ISO-8601 rendering produced by toISOString. -/
def isoShape (y1 y2 y3 y4 mo1 mo2 d1 d2 hh1 hh2 mi1 mi2 s1 s2 f1 f2 f3 : Char) :
    List Char :=
  [y1, y2, y3, y4, '-', mo1, mo2, '-', d1, d2, 'T', hh1, hh2, ':', mi1, mi2, ':',
    s1, s2, '.', f1, f2, f3, 'Z']

lemma digit_ne_sep (c : Char) (h : c.isDigit = true) :
    c ≠ 'T' ∧ c ≠ '.' ∧ c ≠ '-' ∧ c ≠ ':' ∧ c ≠ ' ' := by
  refine ⟨?_, ?_, ?_, ?_, ?_⟩ <;> rintro rfl <;> exact absurd h (by decide)

lemma replaceFirstT_split (pre suf : List Char) (hp : ∀ c ∈ pre, c ≠ 'T') :
    replaceFirstT (pre ++ 'T' :: suf) = pre ++ ' ' :: suf := by
  induction pre with
  | nil => simp [replaceFirstT]
  | cons a t ih =>
      rw [List.cons_append, List.cons_append]
      show (if a = 'T' then ' ' :: (t ++ 'T' :: suf)
          else a :: replaceFirstT (t ++ 'T' :: suf)) = a :: (t ++ ' ' :: suf)
      rw [if_neg (hp a (List.mem_cons_self a t)),
        ih (fun c hc => hp c (List.mem_cons_of_mem a hc))]

lemma takeWhile_of_all (p : Char → Bool) (l : List Char) (h : ∀ c ∈ l, p c = true) :
    l.takeWhile p = l := by
  induction l with
  | nil => rfl
  | cons a t ih =>
      rw [List.takeWhile_cons, if_pos (h a (List.mem_cons_self a t)),
        ih (fun c hc => h c (List.mem_cons_of_mem a hc))]

lemma digit_keep2 (c : Char) (h : c.isDigit = true) :
    (c != '-' && c != ':') = true := by
  obtain ⟨-, -, h3, h4, -⟩ := digit_ne_sep c h
  rw [Bool.and_eq_true]
  exact ⟨bne_iff_ne.mpr h3, bne_iff_ne.mpr h4⟩

lemma digit_keep3 (c : Char) (h : c.isDigit = true) :
    (c != ' ' && c != '-' && c != ':') = true := by
  obtain ⟨-, -, h3, h4, h5⟩ := digit_ne_sep c h
  simp only [Bool.and_eq_true]
  exact ⟨⟨bne_iff_ne.mpr h5, bne_iff_ne.mpr h3⟩, bne_iff_ne.mpr h4⟩

lemma digit_nodot (c : Char) (h : c.isDigit = true) : (c != '.') = true :=
  bne_iff_ne.mpr (digit_ne_sep c h).2.1

lemma fmt_shapes (y1 y2 y3 y4 mo1 mo2 d1 d2 hh1 hh2 mi1 mi2 s1 s2 f1 f2 f3 : Char)
    (hy1 : y1.isDigit = true) (hy2 : y2.isDigit = true) (hy3 : y3.isDigit = true)
    (hy4 : y4.isDigit = true) (hmo1 : mo1.isDigit = true) (hmo2 : mo2.isDigit = true)
    (hd1 : d1.isDigit = true) (hd2 : d2.isDigit = true) (hhh1 : hh1.isDigit = true)
    (hhh2 : hh2.isDigit = true) (hmi1 : mi1.isDigit = true) (hmi2 : mi2.isDigit = true)
    (hs1 : s1.isDigit = true) (hs2 : s2.isDigit = true) :
    fmtEstaTs (isoShape y1 y2 y3 y4 mo1 mo2 d1 d2 hh1 hh2 mi1 mi2 s1 s2 f1 f2 f3) =
      [y1, y2, y3, y4, mo1, mo2, d1, d2, hh1, hh2, mi1, mi2, s1, s2] ∧
    fmtPositionTs (isoShape y1 y2 y3 y4 mo1 mo2 d1 d2 hh1 hh2 mi1 mi2 s1 s2 f1 f2 f3) =
      [y1, y2, y3, y4, mo1, mo2, d1, d2, ' ', hh1, hh2, mi1, mi2, s1, s2] ∧
    fmtCloseTs (isoShape y1 y2 y3 y4 mo1 mo2 d1 d2 hh1 hh2 mi1 mi2 s1 s2 f1 f2 f3) =
      [y1, y2, y3, y4, mo1, mo2, d1, d2, ' ', hh1, hh2, mi1, mi2] := by
  have hrep : replaceFirstT
      (isoShape y1 y2 y3 y4 mo1 mo2 d1 d2 hh1 hh2 mi1 mi2 s1 s2 f1 f2 f3) =
      [y1, y2, y3, y4, '-', mo1, mo2, '-', d1, d2] ++ ' ' ::
        [hh1, hh2, ':', mi1, mi2, ':', s1, s2, '.', f1, f2, f3, 'Z'] := by
    rw [show isoShape y1 y2 y3 y4 mo1 mo2 d1 d2 hh1 hh2 mi1 mi2 s1 s2 f1 f2 f3 =
        [y1, y2, y3, y4, '-', mo1, mo2, '-', d1, d2] ++ 'T' ::
          [hh1, hh2, ':', mi1, mi2, ':', s1, s2, '.', f1, f2, f3, 'Z'] from rfl]
    refine replaceFirstT_split _ _ ?_
    intro c hc
    simp only [List.mem_cons, List.not_mem_nil, or_false] at hc
    rcases hc with rfl | rfl | rfl | rfl | rfl | rfl | rfl | rfl | rfl | rfl
    · exact (digit_ne_sep _ hy1).1
    · exact (digit_ne_sep _ hy2).1
    · exact (digit_ne_sep _ hy3).1
    · exact (digit_ne_sep _ hy4).1
    · decide
    · exact (digit_ne_sep _ hmo1).1
    · exact (digit_ne_sep _ hmo2).1
    · decide
    · exact (digit_ne_sep _ hd1).1
    · exact (digit_ne_sep _ hd2).1
  have htake19 : (replaceFirstT
      (isoShape y1 y2 y3 y4 mo1 mo2 d1 d2 hh1 hh2 mi1 mi2 s1 s2 f1 f2 f3)).take 19 =
      [y1, y2, y3, y4, '-', mo1, mo2, '-', d1, d2, ' ', hh1, hh2, ':', mi1, mi2, ':',
        s1, s2] := by
    rw [hrep]
    rfl
  have htake17 : (replaceFirstT
      (isoShape y1 y2 y3 y4 mo1 mo2 d1 d2 hh1 hh2 mi1 mi2 s1 s2 f1 f2 f3)).take 17 =
      [y1, y2, y3, y4, '-', mo1, mo2, '-', d1, d2, ' ', hh1, hh2, ':', mi1, mi2, ':'] := by
    rw [hrep]
    rfl
  have hdot19 : stripDotSuffix
      [y1, y2, y3, y4, '-', mo1, mo2, '-', d1, d2, ' ', hh1, hh2, ':', mi1, mi2, ':',
        s1, s2] =
      [y1, y2, y3, y4, '-', mo1, mo2, '-', d1, d2, ' ', hh1, hh2, ':', mi1, mi2, ':',
        s1, s2] := by
    refine takeWhile_of_all _ _ ?_
    intro c hc
    simp only [List.mem_cons, List.not_mem_nil, or_false] at hc
    rcases hc with rfl | rfl | rfl | rfl | rfl | rfl | rfl | rfl | rfl | rfl | rfl |
      rfl | rfl | rfl | rfl | rfl | rfl | rfl | rfl
    · exact digit_nodot _ hy1
    · exact digit_nodot _ hy2
    · exact digit_nodot _ hy3
    · exact digit_nodot _ hy4
    · decide
    · exact digit_nodot _ hmo1
    · exact digit_nodot _ hmo2
    · decide
    · exact digit_nodot _ hd1
    · exact digit_nodot _ hd2
    · decide
    · exact digit_nodot _ hhh1
    · exact digit_nodot _ hhh2
    · decide
    · exact digit_nodot _ hmi1
    · exact digit_nodot _ hmi2
    · decide
    · exact digit_nodot _ hs1
    · exact digit_nodot _ hs2
  have hdot17 : stripDotSuffix
      [y1, y2, y3, y4, '-', mo1, mo2, '-', d1, d2, ' ', hh1, hh2, ':', mi1, mi2, ':'] =
      [y1, y2, y3, y4, '-', mo1, mo2, '-', d1, d2, ' ', hh1, hh2, ':', mi1, mi2, ':'] := by
    refine takeWhile_of_all _ _ ?_
    intro c hc
    simp only [List.mem_cons, List.not_mem_nil, or_false] at hc
    rcases hc with rfl | rfl | rfl | rfl | rfl | rfl | rfl | rfl | rfl | rfl | rfl |
      rfl | rfl | rfl | rfl | rfl | rfl
    · exact digit_nodot _ hy1
    · exact digit_nodot _ hy2
    · exact digit_nodot _ hy3
    · exact digit_nodot _ hy4
    · decide
    · exact digit_nodot _ hmo1
    · exact digit_nodot _ hmo2
    · decide
    · exact digit_nodot _ hd1
    · exact digit_nodot _ hd2
    · decide
    · exact digit_nodot _ hhh1
    · exact digit_nodot _ hhh2
    · decide
    · exact digit_nodot _ hmi1
    · exact digit_nodot _ hmi2
    · decide
  refine ⟨?_, ?_, ?_⟩
  · show stripSpaceDashColon (stripDotSuffix ((replaceFirstT
      (isoShape y1 y2 y3 y4 mo1 mo2 d1 d2 hh1 hh2 mi1 mi2 s1 s2 f1 f2 f3)).take 19)) = _
    rw [htake19, hdot19]
    unfold stripSpaceDashColon
    simp [List.filter_cons, List.filter_nil,
      digit_keep3 y1 hy1, digit_keep3 y2 hy2, digit_keep3 y3 hy3, digit_keep3 y4 hy4,
      digit_keep3 mo1 hmo1, digit_keep3 mo2 hmo2, digit_keep3 d1 hd1, digit_keep3 d2 hd2,
      digit_keep3 hh1 hhh1, digit_keep3 hh2 hhh2, digit_keep3 mi1 hmi1,
      digit_keep3 mi2 hmi2, digit_keep3 s1 hs1, digit_keep3 s2 hs2,
      show (('-' : Char) != ' ' && ('-' : Char) != '-' && ('-' : Char) != ':') = false
        from by decide,
      show ((':' : Char) != ' ' && (':' : Char) != '-' && (':' : Char) != ':') = false
        from by decide,
      show ((' ' : Char) != ' ' && (' ' : Char) != '-' && (' ' : Char) != ':') = false
        from by decide,
      if_true, if_false]
  · show stripDashColon (stripDotSuffix ((replaceFirstT
      (isoShape y1 y2 y3 y4 mo1 mo2 d1 d2 hh1 hh2 mi1 mi2 s1 s2 f1 f2 f3)).take 19)) = _
    rw [htake19, hdot19]
    unfold stripDashColon
    simp [List.filter_cons, List.filter_nil,
      digit_keep2 y1 hy1, digit_keep2 y2 hy2, digit_keep2 y3 hy3, digit_keep2 y4 hy4,
      digit_keep2 mo1 hmo1, digit_keep2 mo2 hmo2, digit_keep2 d1 hd1, digit_keep2 d2 hd2,
      digit_keep2 hh1 hhh1, digit_keep2 hh2 hhh2, digit_keep2 mi1 hmi1,
      digit_keep2 mi2 hmi2, digit_keep2 s1 hs1, digit_keep2 s2 hs2,
      show (('-' : Char) != '-' && ('-' : Char) != ':') = false from by decide,
      show ((':' : Char) != '-' && (':' : Char) != ':') = false from by decide,
      show ((' ' : Char) != '-' && (' ' : Char) != ':') = true from by decide,
      if_true, if_false]
  · show stripDashColon (stripDotSuffix ((replaceFirstT
      (isoShape y1 y2 y3 y4 mo1 mo2 d1 d2 hh1 hh2 mi1 mi2 s1 s2 f1 f2 f3)).take 17)) = _
    rw [htake17, hdot17]
    unfold stripDashColon
    simp [List.filter_cons, List.filter_nil,
      digit_keep2 y1 hy1, digit_keep2 y2 hy2, digit_keep2 y3 hy3, digit_keep2 y4 hy4,
      digit_keep2 mo1 hmo1, digit_keep2 mo2 hmo2, digit_keep2 d1 hd1, digit_keep2 d2 hd2,
      digit_keep2 hh1 hhh1, digit_keep2 hh2 hhh2, digit_keep2 mi1 hmi1,
      digit_keep2 mi2 hmi2,
      show (('-' : Char) != '-' && ('-' : Char) != ':') = false from by decide,
      show ((':' : Char) != '-' && (':' : Char) != ':') = false from by decide,
      show ((' ' : Char) != '-' && (' ' : Char) != ':') = true from by decide,
      if_true, if_false]

lemma positionMsgs_shape (frame : RawFrame) (cur : Option ℕ) (m : OutMsg)
    (hm : m ∈ positionMsgsOf frame cur) :
    ∃ pm, m = OutMsg.position pm ∧ pm.upd = fmtPositionTs frame.timestamp ∧
      pm.date = fmtPositionTs frame.timestamp := by
  unfold positionMsgsOf at hm
  rcases cur with _ | id
  · exact absurd hm (List.not_mem_nil m)
  · dsimp only at hm
    rw [List.mem_singleton] at hm
    exact ⟨_, hm, rfl, rfl⟩

lemma closeMsgs_shape (st : BusState) (frame : RawFrame) (hist : List HistEntry)
    (cur : Option ℕ) (m : OutMsg) (hm : m ∈ closeMsgsOf st frame hist cur) :
    ∃ cm, m = OutMsg.close cm ∧
      cm.upd = fmtCloseTs (jsOrStr st.lastProcessedTimestamp frame.timestamp) ∧
      cm.date = fmtCloseTs (jsOrStr st.lastProcessedTimestamp frame.timestamp) := by
  unfold closeMsgsOf at hm
  rcases h : st.lastProcessedSublineRtId with _ | p
  · rw [h] at hm
    exact absurd hm (List.not_mem_nil m)
  · rw [h] at hm
    dsimp only at hm
    split at hm
    · rw [List.mem_singleton] at hm
      exact ⟨_, hm, rfl, rfl⟩
    · exact absurd hm (List.not_mem_nil m)

lemma estaStep_shape (catalog : Option SublineStops) (now : ℝ) (frame : RawFrame)
    (cache : Option StopsCache) (cur : Option ℕ) (m : OutMsg)
    (hm : m ∈ (estaStepOf catalog now frame cache cur).2) :
    ∃ em, m = OutMsg.estaInfo em ∧ em.upd = fmtEstaTs frame.timestamp ∧
      em.date = fmtEstaTs frame.timestamp ∧ em.pos.time = fmtEstaTs frame.timestamp := by
  unfold estaStepOf at hm
  rcases cur with _ | id
  · exact absurd hm (List.not_mem_nil m)
  · dsimp only at hm
    split at hm
    · split at hm
      · split at hm
        · exact absurd hm (List.not_mem_nil m)
        · dsimp only at hm
          rw [List.mem_singleton] at hm
          exact ⟨_, hm, rfl, rfl, rfl⟩
      · exact absurd hm (List.not_mem_nil m)
    · exact absurd hm (List.not_mem_nil m)

/-- Claim C7 corrected: only esta-info messages carry the compact 14-digit
    YYYYMMDDHHMMSS form in upd, date and pos.time.  Position messages keep
    the space between date and time (YYYYMMDD HHMMSS, 15 characters), and
    close messages, formatted from only the first 17 characters, also lose
    the seconds (YYYYMMDD HHMM, 13 characters).  Every message emitted by
    the pipeline derives upd and date (and the esta-info pos.time) from
    these formatters applied to the frame timestamp, the close message
    using the stored previous timestamp when present. -/
theorem C7_timestamp_formats :
    (∀ y1 y2 y3 y4 mo1 mo2 d1 d2 hh1 hh2 mi1 mi2 s1 s2 f1 f2 f3 : Char,
      y1.isDigit = true → y2.isDigit = true → y3.isDigit = true → y4.isDigit = true →
      mo1.isDigit = true → mo2.isDigit = true → d1.isDigit = true → d2.isDigit = true →
      hh1.isDigit = true → hh2.isDigit = true → mi1.isDigit = true → mi2.isDigit = true →
      s1.isDigit = true → s2.isDigit = true →
      (fmtEstaTs (isoShape y1 y2 y3 y4 mo1 mo2 d1 d2 hh1 hh2 mi1 mi2 s1 s2 f1 f2 f3) =
          [y1, y2, y3, y4, mo1, mo2, d1, d2, hh1, hh2, mi1, mi2, s1, s2] ∧
        (fmtEstaTs (isoShape y1 y2 y3 y4 mo1 mo2 d1 d2 hh1 hh2 mi1 mi2 s1 s2
          f1 f2 f3)).length = 14 ∧
        (∀ c ∈ fmtEstaTs (isoShape y1 y2 y3 y4 mo1 mo2 d1 d2 hh1 hh2 mi1 mi2 s1 s2
          f1 f2 f3), c.isDigit = true)) ∧
      (fmtPositionTs (isoShape y1 y2 y3 y4 mo1 mo2 d1 d2 hh1 hh2 mi1 mi2 s1 s2 f1 f2 f3) =
          [y1, y2, y3, y4, mo1, mo2, d1, d2, ' ', hh1, hh2, mi1, mi2, s1, s2] ∧
        (fmtPositionTs (isoShape y1 y2 y3 y4 mo1 mo2 d1 d2 hh1 hh2 mi1 mi2 s1 s2
          f1 f2 f3)).length = 15 ∧
        ' ' ∈ fmtPositionTs (isoShape y1 y2 y3 y4 mo1 mo2 d1 d2 hh1 hh2 mi1 mi2 s1 s2
          f1 f2 f3)) ∧
      (fmtCloseTs (isoShape y1 y2 y3 y4 mo1 mo2 d1 d2 hh1 hh2 mi1 mi2 s1 s2 f1 f2 f3) =
          [y1, y2, y3, y4, mo1, mo2, d1, d2, ' ', hh1, hh2, mi1, mi2] ∧
        (fmtCloseTs (isoShape y1 y2 y3 y4 mo1 mo2 d1 d2 hh1 hh2 mi1 mi2 s1 s2
          f1 f2 f3)).length = 13 ∧
        ' ' ∈ fmtCloseTs (isoShape y1 y2 y3 y4 mo1 mo2 d1 d2 hh1 hh2 mi1 mi2 s1 s2
          f1 f2 f3))) ∧
    (∀ (catalog : Option SublineStops) (now : ℝ) (prevState : Option BusState)
        (frame : RawFrame) (m : OutMsg),
      m ∈ (processLocationData catalog now prevState frame).2 →
      (∀ pm, m = OutMsg.position pm → pm.upd = fmtPositionTs frame.timestamp ∧
        pm.date = fmtPositionTs frame.timestamp) ∧
      (∀ cm, m = OutMsg.close cm →
        cm.upd = fmtCloseTs (jsOrStr
          (prevState.getD initialBusState).lastProcessedTimestamp frame.timestamp) ∧
        cm.date = fmtCloseTs (jsOrStr
          (prevState.getD initialBusState).lastProcessedTimestamp frame.timestamp)) ∧
      (∀ em, m = OutMsg.estaInfo em → em.upd = fmtEstaTs frame.timestamp ∧
        em.date = fmtEstaTs frame.timestamp ∧
        em.pos.time = fmtEstaTs frame.timestamp)) := by
  constructor
  · intro y1 y2 y3 y4 mo1 mo2 d1 d2 hh1 hh2 mi1 mi2 s1 s2 f1 f2 f3
    intro hy1 hy2 hy3 hy4 hmo1 hmo2 hd1 hd2 hhh1 hhh2 hmi1 hmi2 hs1 hs2
    obtain ⟨he, hpos, hcl⟩ := fmt_shapes y1 y2 y3 y4 mo1 mo2 d1 d2 hh1 hh2 mi1 mi2
      s1 s2 f1 f2 f3 hy1 hy2 hy3 hy4 hmo1 hmo2 hd1 hd2 hhh1 hhh2 hmi1 hmi2 hs1 hs2
    refine ⟨⟨he, by rw [he]; rfl, ?_⟩, ⟨hpos, by rw [hpos]; rfl, by rw [hpos]; simp⟩,
      ⟨hcl, by rw [hcl]; rfl, by rw [hcl]; simp⟩⟩
    intro c hc
    rw [he] at hc
    simp only [List.mem_cons, List.not_mem_nil, or_false] at hc
    rcases hc with rfl | rfl | rfl | rfl | rfl | rfl | rfl | rfl | rfl | rfl | rfl |
      rfl | rfl | rfl
    exacts [hy1, hy2, hy3, hy4, hmo1, hmo2, hd1, hd2, hhh1, hhh2, hmi1, hmi2, hs1, hs2]
  · intro catalog now prevState frame m hm
    rw [show (processLocationData catalog now prevState frame).2 =
        (closeMsgsOf (prevState.getD initialBusState) frame
          (processHistory prevState frame) (processInference catalog prevState frame).1 ++
        positionMsgsOf frame (processInference catalog prevState frame).1) ++
        (estaStepOf catalog now frame (processInference catalog prevState frame).2
          (processInference catalog prevState frame).1).2 from rfl] at hm
    rcases List.mem_append.mp hm with hm1 | hm2
    · rcases List.mem_append.mp hm1 with hmc | hmp
      · obtain ⟨cm, rfl, hu, hd⟩ := closeMsgs_shape _ _ _ _ _ hmc
        refine ⟨?_, ?_, ?_⟩
        · intro pm hpm
          exact absurd hpm (by intro h; exact OutMsg.noConfusion h)
        · intro cm2 hcm2
          obtain rfl : cm = cm2 := by
            have := hcm2
            injection this
          exact ⟨hu, hd⟩
        · intro em hem
          exact absurd hem (by intro h; exact OutMsg.noConfusion h)
      · obtain ⟨pm, rfl, hu, hd⟩ := positionMsgs_shape _ _ _ hmp
        refine ⟨?_, ?_, ?_⟩
        · intro pm2 hpm2
          obtain rfl : pm = pm2 := by injection hpm2
          exact ⟨hu, hd⟩
        · intro cm hcm
          exact absurd hcm (by intro h; exact OutMsg.noConfusion h)
        · intro em hem
          exact absurd hem (by intro h; exact OutMsg.noConfusion h)
    · obtain ⟨em, rfl, hu, hd, ht⟩ := estaStep_shape _ _ _ _ _ _ hm2
      refine ⟨?_, ?_, ?_⟩
      · intro pm hpm
        exact absurd hpm (by intro h; exact OutMsg.noConfusion h)
      · intro cm hcm
        exact absurd hcm (by intro h; exact OutMsg.noConfusion h)
      · intro em2 hem2
        obtain rfl : em = em2 := by injection hem2
        exact ⟨hu, hd, ht⟩

/-- A bus on subline 5 of route 101 with a short history. -/
def stateA : BusState := ⟨[hp0], some 101, some 5, some 5, some tsA, none⟩

/-- A frame at the position of hp0 on route 101. -/
def frameA : RawFrame := ⟨101, some ['B'], some 0, some 0, tsA, 1⟩

/-- The position message emitted for stateA and frameA. -/
def posMsgA : PositionMsg :=
  ⟨5, fmtPositionTs tsA, fmtPositionTs tsA, some 0, some 0, 1 * 3.6⟩

/-- Counterexample for C7: a pipeline run whose outbound position message
    carries upd = "20240102 030405" — 15 characters with a space, not the
    compact 14-character YYYYMMDDHHMMSS form the claim asserts for every
    outbound message. -/
theorem C7_counterexample :
    (processLocationData none 0 (some stateA) frameA).2 = [OutMsg.position posMsgA] ∧
    posMsgA.upd = "20240102 030405".toList ∧
    ' ' ∈ posMsgA.upd ∧ posMsgA.upd.length ≠ 14 := by
  refine ⟨rfl, by decide, by decide, by decide⟩

/-- Witness for C7 at the concrete timestamp 2024-01-02T03:04:05.678Z and
    at the concrete pipeline run of stateA and frameA. -/
theorem C7_timestamp_formats_witness :
    (fmtEstaTs tsA = "20240102030405".toList ∧
      fmtPositionTs tsA = "20240102 030405".toList ∧
      fmtCloseTs tsA = "20240102 0304".toList) ∧
    (OutMsg.position posMsgA ∈ (processLocationData none 0 (some stateA) frameA).2 ∧
      posMsgA.upd = fmtPositionTs frameA.timestamp ∧
      posMsgA.date = fmtPositionTs frameA.timestamp) := by
  constructor
  · have h := C7_timestamp_formats.1 '2' '0' '2' '4' '0' '1' '0' '2' '0' '3' '0' '4'
      '0' '5' '6' '7' '8' (by decide) (by decide) (by decide) (by decide) (by decide)
      (by decide) (by decide) (by decide) (by decide) (by decide) (by decide)
      (by decide) (by decide) (by decide)
    exact ⟨h.1.1, h.2.1.1, h.2.2.1⟩
  · have hmem : OutMsg.position posMsgA ∈
        (processLocationData none 0 (some stateA) frameA).2 := by
      rw [show (processLocationData none 0 (some stateA) frameA).2 =
          [OutMsg.position posMsgA] from rfl]
      exact List.mem_singleton.mpr rfl
    have hb := (C7_timestamp_formats.2 none 0 (some stateA) frameA
      (OutMsg.position posMsgA) hmem).1 posMsgA rfl
    exact ⟨hmem, hb.1, hb.2⟩

end Transit
